import Mathlib

/-!
# GHSpringAI static client: categorization page and triage page

A shallow embedding of `src/main/resources/static/categorize.js` and of the
issue list, its pagination and the result map of
`src/main/resources/static/app.js`.

Modelling conventions

* The module-level `let` variables of `categorize.js` are the fields of
  `Categorize.State`.  The parts of the DOM the script writes to are fields of
  the same record (`issuesList`, `pageInfo`, the button flags, the summary
  counters, the search panel), `alert` calls are appended to `alerts` and every
  `fetch` is appended to `requests`.
* Result objects live in `State.heap`; `allResults` and `filteredResults` are
  arrays of references (indices into the heap).  This keeps the aliasing of the
  script: `filterByCategory` copies references, so the assignment
  `result.issue.labeled = true` in `updateLabels` is seen through both arrays.
* An `async` function is applied to the state in which its response is
  handled, with the server outcome as an argument.  `startCategorization`
  writes to the state before it awaits, so it is split in two steps.
* Issue numbers, offsets and counts are integers.  A confidence is a rational
  (`0.75` is `3/4`); the product `confidence * 100` of `createIssueCard` is
  rounded to the nearest double (`roundToDouble`), and the integer `parseInt`
  reads is printed as the double the script holds for it (`numberText`).
-/

namespace Categorize

/-- The `issue` object of a result (`result.issue`).  `labeled` is absent
(falsy) on every object the script builds itself. -/
structure Issue where
  number : Int
  title : String
  htmlUrl : String
  login : String
  createdAt : String
  comments : Nat
  labeled : Bool
  deriving DecidableEq, Repr

/-- A result object as held in `allResults`. -/
structure Result where
  issue : Issue
  category : String
  confidence : ℚ
  reasoning : String
  suggestedLabels : List String
  duplicateOf : Option Int
  deriving DecidableEq, Repr

/-- One element of `data.results` of the quick-triage endpoints. -/
structure QuickResult where
  issueNumber : Int
  issueTitle : String
  issueUrl : String
  author : String
  createdAt : String
  category : String
  reason : String
  deriving DecidableEq, Repr

/-- The object `categoryCounts`. -/
structure CategoryCounts where
  BUG : Nat
  FEATURE_REQUEST : Nat
  QUESTION : Nat
  USABILITY : Nat
  deriving DecidableEq, Repr

/-- The literal `{ BUG: 0, FEATURE_REQUEST: 0, QUESTION: 0, USABILITY: 0 }`. -/
def zeroCounts : CategoryCounts := ⟨0, 0, 0, 0⟩

/-- The statement `if (categoryCounts.hasOwnProperty(cat)) categoryCounts[cat]++`. -/
def CategoryCounts.increment (c : CategoryCounts) (cat : String) : CategoryCounts :=
  if cat = "BUG" then { c with BUG := c.BUG + 1 }
  else if cat = "FEATURE_REQUEST" then { c with FEATURE_REQUEST := c.FEATURE_REQUEST + 1 }
  else if cat = "QUESTION" then { c with QUESTION := c.QUESTION + 1 }
  else if cat = "USABILITY" then { c with USABILITY := c.USABILITY + 1 }
  else c

/-- The read `categoryCounts[cat]` for one of the four own properties, zero
for any other key. -/
def CategoryCounts.get (c : CategoryCounts) (cat : String) : Nat :=
  if cat = "BUG" then c.BUG
  else if cat = "FEATURE_REQUEST" then c.FEATURE_REQUEST
  else if cat = "QUESTION" then c.QUESTION
  else if cat = "USABILITY" then c.USABILITY
  else 0

/-- The values interpolated into the markup of one issue card by
`createIssueCard`. -/
structure IssueCard where
  issueNumber : Int
  htmlUrl : String
  title : String
  categoryLabel : String
  confidencePercent : Int
  isLabeled : Bool
  buttonCategory : String
  reasoning : String
  duplicateOf : Option Int
  suggestedLabels : List String
  login : String
  createdAt : String
  comments : Nat
  deriving DecidableEq, Repr

/-- The values interpolated into the search result panel by
`displaySearchResult`. -/
structure SearchPanel where
  issueNumber : Int
  url : String
  title : String
  categoryLabel : String
  confidencePercent : ℚ
  reasoning : String
  suggestedLabels : List String
  buttonCategory : String
  deriving DecidableEq, Repr

/-- A reference to a result object: its index in the heap. -/
abbrev Ref := Nat

/-- The module state of `categorize.js` with the DOM nodes it writes. -/
structure State where
  heap : List Result
  currentPage : Nat
  allResults : List Ref
  filteredResults : List Ref
  currentFilter : String
  totalIssues : Nat
  categoryCounts : CategoryCounts
  issuesList : List IssueCard
  pageInfo : String
  prevBtnDisabled : Bool
  nextBtnDisabled : Bool
  loadingOverlay : Bool
  progressText : String
  totalCount : Nat
  bugCount : Nat
  featureCount : Nat
  questionCount : Nat
  usabilityCount : Nat
  searchError : Option String
  searchResult : Option SearchPanel
  alerts : List String
  requests : List String
  deriving DecidableEq, Repr

/-- The constant `pageSize` (declared with `let`, never reassigned). -/
def pageSize : Nat := 10

/-- The state after the top-level declarations have run, before
`DOMContentLoaded`. -/
def initialState : State where
  heap := []
  currentPage := 0
  allResults := []
  filteredResults := []
  currentFilter := "all"
  totalIssues := 0
  categoryCounts := zeroCounts
  issuesList := []
  pageInfo := ""
  prevBtnDisabled := false
  nextBtnDisabled := false
  loadingOverlay := false
  progressText := ""
  totalCount := 0
  bugCount := 0
  featureCount := 0
  questionCount := 0
  usabilityCount := 0
  searchError := none
  searchResult := none
  alerts := []
  requests := []

/-- The objects an array of references points to, in array order. -/
def deref (heap : List Result) (refs : List Ref) : List Result :=
  refs.filterMap (fun r => heap[r]?)

/-- The contents of `allResults`. -/
def State.cache (s : State) : List Result := deref s.heap s.allResults

/-- The contents of `filteredResults`. -/
def State.view (s : State) : List Result := deref s.heap s.filteredResults

/-- The property names an object literal inherits from `Object.prototype`:
`map[key]` is truthy for them although the literal does not list them. -/
def inheritedKeys : List String :=
  ["constructor", "toString", "toLocaleString", "valueOf", "hasOwnProperty", "isPrototypeOf",
    "propertyIsEnumerable", "__proto__", "__defineGetter__", "__defineSetter__",
    "__lookupGetter__", "__lookupSetter__"]

/-- The text a template literal shows for the inherited property `key`: the
source text of a built-in function, or `[object Object]` for the prototype. -/
def inheritedText (key : String) : String :=
  if key = "__proto__" then "[object Object]"
  else if key = "constructor" then "function Object() \x7b [native code] \x7d"
  else "function " ++ key ++ "() \x7b [native code] \x7d"

/-- The value `categoryMap[category] || category` of `formatCategory`, as the
text the card shows. -/
def formatCategory (category : String) : String :=
  if category = "BUG" then "Bug"
  else if category = "FEATURE_REQUEST" then "Feature Request"
  else if category = "QUESTION" then "Question"
  else if category = "USABILITY" then "Usability"
  else if category ∈ inheritedKeys then inheritedText category
  else category

/-- The value `labelMap[category] || 'type: other'` of `getCategoryLabel`, as
the text the confirmation shows. -/
def getCategoryLabel (category : String) : String :=
  if category = "BUG" then "type: bug"
  else if category = "FEATURE_REQUEST" then "type: feature"
  else if category = "QUESTION" then "type: question"
  else if category = "USABILITY" then "type: usability"
  else if category ∈ inheritedKeys then inheritedText category
  else "type: other"

/-- The double nearest to the rational `q`, a tie going to the even
significand: the number the script holds for a number written as `q`, and the
result of an arithmetic operation whose exact result is `q`.  A fraction whose
denominator is a power of two and whose numerator has at most 53 bits is a
double already; any other number is scaled to a 53-bit significand and rounded.
The exponent range (overflow, subnormal numbers) is not modelled. -/
def roundToDouble (q : ℚ) : ℚ :=
  if q.den = 2 ^ Nat.log2 q.den ∧ q.num.natAbs ≤ 2 ^ 53 then q
  else
    let a : ℚ := |q|
    let k : Int := (Nat.log2 q.num.natAbs : Int) - (Nat.log2 q.den : Int)
    let e : Int := (if a < (2 : ℚ) ^ k then k - 1 else k) - 52
    let m : ℚ := a / (2 : ℚ) ^ e
    let f : Int := ⌊m⌋
    let r : Int := if m - f > 1 / 2 ∨ (m - f = 1 / 2 ∧ f % 2 = 1) then f + 1 else f
    (if q < 0 then -1 else 1) * (r : ℚ) * (2 : ℚ) ^ e

/-- The call `x.toFixed(0)` on a double `x`, read as an integer: the nearest
integer, a tie going away from zero.  The exponent form the call prints from
`1e21` on and the sign of a negative zero are not modelled. -/
def toFixed0 (x : ℚ) : Int :=
  if x < 0 then -⌊-x + 1 / 2⌋ else ⌊x + 1 / 2⌋

/-- The expression `(confidence * 100).toFixed(0)` of `createIssueCard`: the
product is the double nearest to the exact product of the held double and
100. -/
def confidencePercentOf (confidence : ℚ) : Int :=
  toFixed0 (roundToDouble (roundToDouble confidence * 100))

/-- The function `createIssueCard`; the markup around the interpolated values,
the CSS class and `escapeHtml` are left out. -/
def createIssueCard (result : Result) : IssueCard where
  issueNumber := result.issue.number
  htmlUrl := result.issue.htmlUrl
  title := result.issue.title
  categoryLabel := formatCategory result.category
  confidencePercent := confidencePercentOf result.confidence
  isLabeled := result.issue.labeled || false
  buttonCategory := result.category
  reasoning := result.reasoning
  duplicateOf := result.duplicateOf
  suggestedLabels := result.suggestedLabels
  login := result.issue.login
  createdAt := result.issue.createdAt
  comments := result.issue.comments

/-- The value `Math.ceil(filteredResults.length / pageSize)`. -/
def totalFilteredPages (s : State) : Int :=
  ⌈((s.filteredResults.length : ℚ) / (pageSize : ℚ))⌉

/-- The function `updatePaginationUI`. -/
def updatePaginationUI (s : State) : State :=
  if s.filteredResults.length = 0 then
    { s with pageInfo := "No results", prevBtnDisabled := true, nextBtnDisabled := true }
  else
    let startIndex := s.currentPage * pageSize + 1
    let endIndex := min ((s.currentPage + 1) * pageSize) s.filteredResults.length
    { s with
      pageInfo := "Showing " ++ toString startIndex ++ "-" ++ toString endIndex ++ " of "
        ++ toString s.filteredResults.length
      prevBtnDisabled := decide (s.currentPage = 0)
      nextBtnDisabled := decide ((s.currentPage : Int) ≥ totalFilteredPages s - 1) }

/-- The array `filteredResults.slice(startIndex, endIndex)` of
`displayCurrentPage`. -/
def pageSlice (filteredResults : List Ref) (currentPage : Nat) : List Ref :=
  let startIndex := currentPage * pageSize
  let endIndex := min (startIndex + pageSize) filteredResults.length
  (filteredResults.drop startIndex).take (endIndex - startIndex)

/-- The function `displayCurrentPage`.  An empty `issuesList` stands for the
"No categorized issues yet" message. -/
def displayCurrentPage (s : State) : State :=
  let pageResults := pageSlice s.filteredResults s.currentPage
  if pageResults.length = 0 then
    updatePaginationUI { s with issuesList := [] }
  else
    updatePaginationUI
      { s with issuesList := (deref s.heap pageResults).map createIssueCard }

/-- The test `result.category === category` on the object behind a reference. -/
def hasCategory (heap : List Result) (category : String) (r : Ref) : Bool :=
  match heap[r]? with
  | some result => decide (result.category = category)
  | none => false

/-- The function `filterByCategory`; the `active` class of the filter buttons
is left out. -/
def filterByCategory (s : State) (category : String) : State :=
  let s1 := { s with currentFilter := category, currentPage := 0 }
  let s2 :=
    if category = "all" then
      { s1 with filteredResults := s1.allResults }
    else
      { s1 with filteredResults := s1.allResults.filter (hasCategory s1.heap category) }
  displayCurrentPage s2

/-- The function `previousPage`. -/
def previousPage (s : State) : State :=
  if s.currentPage > 0 then
    displayCurrentPage { s with currentPage := s.currentPage - 1 }
  else s

/-- The function `nextPage`. -/
def nextPage (s : State) : State :=
  if (s.currentPage : Int) < totalFilteredPages s - 1 then
    displayCurrentPage { s with currentPage := s.currentPage + 1 }
  else s

/-- How an awaited `fetch` followed by `response.json()` ends: the promise
rejects, the response has `ok = false` (with its body when that parses), or
the response is `ok` with parsed data. -/
inductive Fetched (α : Type) where
  | thrown (message : String)
  | notOk (status : Nat) (body : Option α)
  | ok (data : α)
  deriving DecidableEq, Repr

/-- The constant `API_BASE`. -/
def API_BASE : String := "/api/triage"

/-- The function `showLoading`. -/
def showLoading (s : State) (show_ : Bool) : State :=
  { s with loadingOverlay := show_ }

/-- The function `alert`: the message is appended to the log. -/
def alert (s : State) (message : String) : State :=
  { s with alerts := s.alerts ++ [message] }

/-- A call of `fetch`: the URL is appended to the request log. -/
def fetch (s : State) (url : String) : State :=
  { s with requests := s.requests ++ [url] }

/-- The function `updateSummary`. -/
def updateSummary (s : State) : State :=
  { s with
    totalCount := s.allResults.length
    bugCount := s.categoryCounts.BUG
    featureCount := s.categoryCounts.FEATURE_REQUEST
    questionCount := s.categoryCounts.QUESTION
    usabilityCount := s.categoryCounts.USABILITY }

/-- The assignment `allResults = objs` for freshly created objects: they are
put on the heap and the array holds their references. -/
def storeResults (s : State) (objs : List Result) : State :=
  { s with heap := s.heap ++ objs, allResults := List.range' s.heap.length objs.length }

/-- The object built for `r` by the `map` of `startQuickTriage` (lines 45-59). -/
def quickTriageResult (r : QuickResult) : Result where
  issue :=
    { number := r.issueNumber, title := r.issueTitle, htmlUrl := r.issueUrl,
      login := r.author, createdAt := r.createdAt, comments := 0, labeled := false }
  category := r.category
  confidence := 0.75
  reasoning := r.reason
  suggestedLabels := []
  duplicateOf := none

/-- The object built for `r` by the `map` of `loadQuickTriageResults`
(lines 94-108). -/
def loadedQuickTriageResult (r : QuickResult) : Result where
  issue :=
    { number := r.issueNumber, title := r.issueTitle, htmlUrl := r.issueUrl,
      login := r.author, createdAt := r.createdAt, comments := 0, labeled := false }
  category := if r.category = "FEATURE" then "FEATURE_REQUEST" else r.category
  confidence := 0.75
  reasoning := r.reason
  suggestedLabels := []
  duplicateOf := none

/-- The counting loop of `startQuickTriage` (lines 63-68). -/
def countQuickTriage (objs : List Result) (counts : CategoryCounts) : CategoryCounts :=
  objs.foldl
    (fun c result =>
      let cat := if result.category = "FEATURE" then "FEATURE_REQUEST" else result.category
      c.increment cat)
    counts

/-- The counting loop of `loadQuickTriageResults` and `categorizeAllPages`
(lines 112-116 and 166-170). -/
def countResults (objs : List Result) (counts : CategoryCounts) : CategoryCounts :=
  objs.foldl (fun c result => c.increment result.category) counts

/-- The function `startQuickTriage`: `confirmed` is the answer to `confirm`,
`response` the outcome of the request. -/
def startQuickTriage (s : State) (confirmed : Bool) (response : Fetched (List QuickResult)) :
    State :=
  if confirmed then
    let s1 := { showLoading s true with progressText := "Quick triaging..." }
    let s2 := fetch s1 (API_BASE ++ "/quick-triage?limit=10")
    let fail := fun (message : String) =>
      alert (showLoading s2 false) ("Error during quick triage: " ++ message)
    match response with
    | .thrown message => fail message
    | .notOk status _ => fail ("HTTP error! status: " ++ toString status)
    | .ok results =>
      let objs := results.map quickTriageResult
      let s3 := storeResults s2 objs
      let s4 := { s3 with categoryCounts := countQuickTriage objs zeroCounts }
      let s5 := showLoading s4 false
      let s6 := alert s5
        ("Quick triage complete! Processed " ++ toString s5.allResults.length ++ " issues.")
      filterByCategory (updateSummary s6) s6.currentFilter
  else s

/-- The function `loadQuickTriageResults`. -/
def loadQuickTriageResults (s : State) (response : Fetched (List QuickResult)) : State :=
  let s1 := fetch s (API_BASE ++ "/quick-triage-results")
  match response with
  | .thrown _ => s1
  | .notOk _ _ => s1
  | .ok results =>
    if results.length > 0 then
      let objs := results.map loadedQuickTriageResult
      let s2 := storeResults s1 objs
      let s3 := { s2 with categoryCounts := countResults objs zeroCounts }
      filterByCategory (updateSummary s3) s3.currentFilter
    else s1

/-- The body of a `categorize-all` response. -/
structure CategorizeData where
  results : List Result
  totalIssues : Nat
  deriving DecidableEq, Repr

/-- The function `categorizeAllPages`: the state it leaves and, when it
rethrows, the message of the error. -/
def categorizeAllPages (s : State) (response : Fetched CategorizeData) :
    State × Option String :=
  let s1 := fetch s (API_BASE ++ "/categorize-all")
  match response with
  | .thrown message => (s1, some message)
  | .notOk status _ => (s1, some ("HTTP error! status: " ++ toString status))
  | .ok data =>
    if data.results.length > 0 then
      let s2 := storeResults s1 data.results
      let s3 := { s2 with categoryCounts := countResults data.results s2.categoryCounts }
      ({ s3 with
        totalIssues := data.totalIssues
        progressText := toString s3.allResults.length ++ "/" ++ toString data.totalIssues },
        none)
    else (s1, none)

/-- The statements of `startCategorization` that run before it awaits
`categorizeAllPages` (after the user has confirmed). -/
def startCategorizationBegin (s : State) : State :=
  { showLoading s true with allResults := [], categoryCounts := zeroCounts, currentPage := 0 }

/-- The rest of `startCategorization`, run when `categorizeAllPages` settles. -/
def startCategorizationResolve (s : State) (response : Fetched CategorizeData) : State :=
  match categorizeAllPages s response with
  | (s1, none) =>
    let s2 := showLoading s1 false
    let s3 := alert s2
      ("Categorization complete! Processed " ++ toString s2.allResults.length ++ " issues.")
    filterByCategory (updateSummary s3) s3.currentFilter
  | (s1, some message) =>
    alert (showLoading s1 false) ("Error during categorization: " ++ message)

/-- The function `startCategorization` with nothing else running while it
awaits. -/
def startCategorization (s : State) (confirmed : Bool) (response : Fetched CategorizeData) :
    State :=
  if confirmed then startCategorizationResolve (startCategorizationBegin s) response else s

/-- The body of an `update-labels` response. -/
structure LabelData where
  success : Bool
  error : Option String
  deriving DecidableEq, Repr

/-- The value `a || b` for an optional string `a`: absent and empty are falsy. -/
def orElse (a : Option String) (b : String) : String :=
  match a with
  | some x => if x = "" then b else x
  | none => b

/-- The test `r.issue.number === issueNumber` on the object behind a reference. -/
def hasNumber (heap : List Result) (issueNumber : Int) (r : Ref) : Bool :=
  match heap[r]? with
  | some result => decide (result.issue.number = issueNumber)
  | none => false

/-- The assignment `result.issue.labeled = true` on the object behind `r`. -/
def markLabeled (heap : List Result) (r : Ref) : List Result :=
  match heap[r]? with
  | some result => heap.set r { result with issue := { result.issue with labeled := true } }
  | none => heap

/-- The function `updateLabels`: `confirmed` is the answer to `confirm`,
`response` the outcome of the request. -/
def updateLabels (s : State) (issueNumber : Int) (category : String) (confirmed : Bool)
    (response : Fetched LabelData) : State :=
  if !confirmed then s
  else
    let s1 := fetch s
      (API_BASE ++ "/update-labels/" ++ toString issueNumber ++ "?category=" ++ category)
    let fail := fun (message : String) => alert s1 ("Error updating labels: " ++ message)
    match response with
    | .thrown message => fail message
    | .notOk status _ => fail ("HTTP error! status: " ++ toString status)
    | .ok data =>
      if data.success then
        let issueCard := s1.issuesList.find? (fun card => decide (card.issueNumber = issueNumber))
        let s2 :=
          if issueCard.isSome then
            let result := s1.allResults.find? (hasNumber s1.heap issueNumber)
            let s3 :=
              match result with
              | some r => { s1 with heap := markLabeled s1.heap r }
              | none => s1
            displayCurrentPage s3
          else s1
        alert s2 ("Successfully updated labels for issue #" ++ toString issueNumber)
      else fail (orElse data.error "Failed to update labels")

/-- White space skipped by `parseInt` at the start of its argument. -/
def isWhiteSpace (c : Char) : Bool :=
  let n := c.toNat
  n = 9 || n = 10 || n = 11 || n = 12 || n = 13 || n = 32 || n = 0xA0 || n = 0x1680
    || (0x2000 ≤ n && n ≤ 0x200A) || n = 0x2028 || n = 0x2029 || n = 0x202F || n = 0x205F
    || n = 0x3000 || n = 0xFEFF

/-- The value of a character as a digit, for radices up to 36. -/
def digitValue (c : Char) : Option Nat :=
  let n := c.toNat
  if 48 ≤ n ∧ n ≤ 57 then some (n - 48)
  else if 97 ≤ n ∧ n ≤ 122 then some (n - 87)
  else if 65 ≤ n ∧ n ≤ 90 then some (n - 55)
  else none

/-- The longest prefix of characters that are digits in the radix, as digit
values. -/
def takeDigits (radix : Nat) : List Char → List Nat
  | [] => []
  | c :: cs =>
    match digitValue c with
    | some d => if d < radix then d :: takeDigits radix cs else []
    | none => []

/-- The number written by a list of digits, most significant first. -/
def digitsValue (radix : Nat) (ds : List Nat) : Nat :=
  ds.foldl (fun acc d => acc * radix + d) 0

/-- The call `parseInt(text)` without a radix; `none` is `NaN`.  Leading white
space is skipped, a sign is read, a `0x` prefix selects radix 16, and the
longest prefix of digits is the value.  The value is the integer the digits
denote; the script holds the double nearest to it, which has the same sign,
and `numberText` is the text it prints for it. -/
def parseInt (text : String) : Option Int :=
  let cs := text.toList.dropWhile isWhiteSpace
  let signed : Int × List Char :=
    match cs with
    | '-' :: rest => (-1, rest)
    | '+' :: rest => (1, rest)
    | _ => (1, cs)
  let based : Nat × List Char :=
    match signed.2 with
    | '0' :: 'x' :: rest => (16, rest)
    | '0' :: 'X' :: rest => (16, rest)
    | _ => (10, signed.2)
  let ds := takeDigits based.1 based.2
  if ds = [] then none else some (signed.1 * (digitsValue based.1 ds : Int))

/-- The double nearest to the natural number `n` (a tie going to the even
significand), as a natural number; `2 ^ 1024` and more stand for `Infinity`. -/
def nearestDouble (n : Nat) : Nat :=
  if n < 2 ^ 53 then n
  else
    let shift := Nat.log2 n - 52
    let q := n / 2 ^ shift
    let r := n % 2 ^ shift
    let half := 2 ^ (shift - 1)
    let q' := if r > half ∨ (r = half ∧ q % 2 = 1) then q + 1 else q
    q' * 2 ^ shift

/-- The candidates with `k` significant digits for the text of the double `v`:
the multiples of `10 ^ (digits - k)` next below and next above `v` that are read
back as `v`, the nearer one first (of two equally near ones the even one). -/
def digitCandidates (v k : Nat) : List Nat :=
  let scale := 10 ^ ((Nat.log 10 v + 1) - k)
  let lo := v / scale * scale
  let hi := lo + scale
  let ordered :=
    if v - lo < hi - v then [lo, hi]
    else if hi - v < v - lo then [hi, lo]
    else if (v / scale) % 2 = 0 then [lo, hi] else [hi, lo]
  ordered.filter (fun c => nearestDouble c = v)

/-- The integer whose digits `Number::toString` prints for the double `v`: the
one with the fewest significant digits that is read back as `v`. -/
def shortestDecimal (v : Nat) : Nat :=
  (((List.range 17).map (fun i => i + 1)).findSome?
    (fun k => (digitCandidates v k).head?)).getD v

/-- A natural number without its trailing zeros. -/
def stripZeros (fuel c : Nat) : Nat :=
  match fuel with
  | 0 => c
  | fuel + 1 => if c ≠ 0 ∧ c % 10 = 0 then stripZeros fuel (c / 10) else c

/-- The text `Number::toString` gives for the double `v ≥ 2 ^ 53`: its shortest
digits, in exponent form from `1e+21` on. -/
def doubleText (v : Nat) : String :=
  if v ≥ 2 ^ 1024 then "Infinity"
  else
    let c := shortestDecimal v
    if c < 10 ^ 21 then toString c
    else
      let exponent := Nat.log 10 c
      let digits := (toString (stripZeros 400 c)).toList
      match digits with
      | [] => ""
      | [d] => String.mk [d] ++ "e+" ++ toString exponent
      | d :: rest => String.mk (d :: '.' :: rest) ++ "e+" ++ toString exponent

/-- The text of the number the script holds for the integer `n` that
`parseInt` read: up to `2 ^ 53` in absolute value the number is `n` itself and
the text its decimal digits; beyond, the number is the double nearest to `n`. -/
def numberText (n : Int) : String :=
  if n.natAbs ≤ 2 ^ 53 then toString n
  else (if n < 0 then "-" else "") ++ doubleText (nearestDouble n.natAbs)

/-- The function `getErrorMessage`; `issueId` is the integer `parseInt` read. -/
def getErrorMessage (errorCode : Option String) (errorMessage : Option String) (issueId : Int) :
    String :=
  if errorCode = some "ISSUE_NOT_FOUND" then
    "Issue #" ++ numberText issueId
      ++ " was not found in the repository. Please check the issue number and try again."
  else if errorCode = some "INVALID_ISSUE_ID" then
    "Please enter a valid positive issue number."
  else if errorCode = some "RATE_LIMIT_EXCEEDED" then
    "GitHub API rate limit exceeded. Please wait a few minutes and try again."
  else if errorCode = some "GITHUB_API_ERROR" then
    "Unable to connect to GitHub. Please check your configuration and try again."
  else if errorCode = some "CLASSIFICATION_ERROR" then
    "Failed to classify the issue. Please try again later."
  else orElse errorMessage "An unexpected error occurred. Please try again."

/-- The object `data.issue` of a search response. -/
structure SearchIssue where
  number : Int
  title : String
  url : String
  deriving DecidableEq, Repr

/-- The object `data.triageResult` of a search response. -/
structure SearchTriage where
  category : String
  confidence : ℚ
  reasoning : String
  suggestedLabels : List String
  deriving DecidableEq, Repr

/-- The body of a `search-issue` response; `issue` and `triageResult` may be
absent. -/
structure SearchData where
  success : Bool
  issue : Option SearchIssue
  triageResult : Option SearchTriage
  errorCode : Option String
  error : Option String
  deriving DecidableEq, Repr

/-- The function `displaySearchError`. -/
def displaySearchError (s : State) (message : String) : State :=
  { s with searchError := some message, searchResult := none }

/-- The function `clearSearchError`. -/
def clearSearchError (s : State) : State :=
  { s with searchError := none }

/-- The function `displaySearchResult`; `none` when it throws because
`data.issue` or `data.triageResult` is absent.  The optional sections of the
panel are left out. -/
def displaySearchResult (s : State) (data : SearchData) : Option State :=
  match data.issue, data.triageResult with
  | some issue, some triage =>
    some { s with
      searchResult := some
        { issueNumber := issue.number, url := issue.url, title := issue.title,
          categoryLabel := formatCategory triage.category,
          confidencePercent := triage.confidence,
          reasoning := triage.reasoning,
          suggestedLabels := triage.suggestedLabels,
          buttonCategory := triage.category } }
  | _, _ => none

/-- The function `searchIssue`: `value` is `input.value`, `response` the
outcome of the request if one is sent. -/
def searchIssue (s : State) (value : String) (response : Fetched SearchData) : State :=
  let issueId := parseInt value
  let s1 := clearSearchError s
  match issueId with
  | none => displaySearchError s1 "Please enter a valid positive issue number"
  | some issueId =>
    if value = "" ∨ issueId ≤ 0 then
      displaySearchError s1 "Please enter a valid positive issue number"
    else
      let s2 := { showLoading s1 true with
        progressText := "Searching for issue #" ++ numberText issueId ++ "..." }
      let s3 := fetch s2 (API_BASE ++ "/search-issue/" ++ numberText issueId)
      let networkError := fun (st : State) =>
        displaySearchError (showLoading st false)
          "Network error. Please check your connection and try again."
      let failed := fun (data : SearchData) =>
        displaySearchError (showLoading s3 false)
          (getErrorMessage data.errorCode data.error issueId)
      match response with
      | .thrown _ => networkError s3
      | .notOk _ none => networkError s3
      | .notOk _ (some data) => failed data
      | .ok data =>
        if !data.success then failed data
        else
          match displaySearchResult (showLoading s3 false) data with
          | some s4 => s4
          | none => networkError s3

/-- The function `updateLabelsFromSearch`: it reports the outcome and leaves
the cache alone. -/
def updateLabelsFromSearch (s : State) (issueNumber : Int) (category : String)
    (confirmed : Bool) (response : Fetched LabelData) : State :=
  if !confirmed then s
  else
    let s1 := fetch s
      (API_BASE ++ "/update-labels/" ++ toString issueNumber ++ "?category=" ++ category)
    let fail := fun (message : String) => alert s1 ("Error updating labels: " ++ message)
    match response with
    | .thrown message => fail message
    | .notOk status _ => fail ("HTTP error! status: " ++ toString status)
    | .ok data =>
      if data.success then
        alert s1 ("Successfully updated labels for issue #" ++ toString issueNumber)
      else fail (orElse data.error "Failed to update labels")

/-- A step of the page: a call of one of the handlers, or the settling of a
request, with the answers of the user and of the server.  A confirmed
`startCategorization` is `startCategorizationBegin` followed, possibly after
other steps, by `startCategorizationResolve`. -/
inductive Op where
  | filterByCategory (category : String)
  | previousPage
  | nextPage
  | startQuickTriage (confirmed : Bool) (response : Fetched (List QuickResult))
  | loadQuickTriageResults (response : Fetched (List QuickResult))
  | startCategorizationBegin
  | startCategorizationResolve (response : Fetched CategorizeData)
  | updateLabels (issueNumber : Int) (category : String) (confirmed : Bool)
      (response : Fetched LabelData)
  | updateLabelsFromSearch (issueNumber : Int) (category : String) (confirmed : Bool)
      (response : Fetched LabelData)
  | searchIssue (value : String) (response : Fetched SearchData)
  deriving DecidableEq, Repr

/-- The state after one step. -/
def Op.apply (s : State) : Op → State
  | .filterByCategory category => Categorize.filterByCategory s category
  | .previousPage => Categorize.previousPage s
  | .nextPage => Categorize.nextPage s
  | .startQuickTriage confirmed response => Categorize.startQuickTriage s confirmed response
  | .loadQuickTriageResults response => Categorize.loadQuickTriageResults s response
  | .startCategorizationBegin => Categorize.startCategorizationBegin s
  | .startCategorizationResolve response => Categorize.startCategorizationResolve s response
  | .updateLabels issueNumber category confirmed response =>
    Categorize.updateLabels s issueNumber category confirmed response
  | .updateLabelsFromSearch issueNumber category confirmed response =>
    Categorize.updateLabelsFromSearch s issueNumber category confirmed response
  | .searchIssue value response => Categorize.searchIssue s value response

/-- The state after a sequence of steps, first step first. -/
def run (s : State) (ops : List Op) : State :=
  ops.foldl Op.apply s

/-- Whether a step is a bulk ingestion whose response holds a result for issue
`n` without the `labeled` flag. -/
def Op.ingestsUnlabeled (n : Int) : Op → Bool
  | .startQuickTriage true (.ok results) =>
    results.any (fun r => decide (r.issueNumber = n))
  | .loadQuickTriageResults (.ok results) =>
    results.any (fun r => decide (r.issueNumber = n))
  | .startCategorizationResolve (.ok data) =>
    data.results.any (fun r => decide (r.issue.number = n) && !r.issue.labeled)
  | _ => false

/-- Every cached result for issue `n` has `labeled = true`. -/
def LabeledIn (s : State) (n : Int) : Prop :=
  ∀ result ∈ s.cache, result.issue.number = n → result.issue.labeled = true

/-- Follows the claim's words for `updateLabels`: the cached result for `n`
(the first one) gets `labeled = true`, every other result and field is
unchanged. -/
def markFirstLabeled (n : Int) : List Result → List Result
  | [] => []
  | result :: rest =>
    if result.issue.number = n then
      { result with issue := { result.issue with labeled := true } } :: rest
    else result :: markFirstLabeled n rest

/-- Follows the claim's words for `searchIssue`: the text is a numeral denoting
a positive integer, that is a non-empty string of decimal digits that are not
all zero. -/
def isPositiveIntegerNumeral (text : String) : Bool :=
  !text.toList.isEmpty && text.toList.all (fun c => 48 ≤ c.toNat && c.toNat ≤ 57)
    && text.toList.any (fun c => c != '0')

/-- The page index is a page of the filtered view: it is 0, or at most the
last page `totalFilteredPages - 1`. -/
def PageInRange (s : State) : Prop :=
  s.currentPage = 0 ∨ (s.currentPage : Int) ≤ totalFilteredPages s - 1

/-- The filter `filter` applied to a list of results: all of them for `all`,
otherwise those whose category equals the filter, in order. -/
def applyFilter (filter : String) (results : List Result) : List Result :=
  if filter = "all" then results
  else results.filter (fun result => decide (result.category = filter))

/-- The filtered view is the active filter applied to the cache. -/
def ViewConsistent (s : State) : Prop :=
  s.view = applyFilter s.currentFilter s.cache

/-- The array `filteredResults` is the active filter applied to the array
`allResults`, reference by reference. -/
def RefsConsistent (s : State) : Prop :=
  s.filteredResults
    = if s.currentFilter = "all" then s.allResults
      else s.allResults.filter (hasCategory s.heap s.currentFilter)

/-- Every reference held by `allResults` and `filteredResults` points into the
heap. -/
def RefsValid (s : State) : Prop :=
  (∀ r ∈ s.allResults, r < s.heap.length) ∧ (∀ r ∈ s.filteredResults, r < s.heap.length)

/-- The variables the pager and the filter work on, and the rendered cards, are
the same in both states. -/
def SameCore (s t : State) : Prop :=
  t.heap = s.heap ∧ t.allResults = s.allResults ∧ t.filteredResults = s.filteredResults
    ∧ t.currentPage = s.currentPage ∧ t.currentFilter = s.currentFilter
    ∧ t.issuesList = s.issuesList

/-- What holds of every state the page reaches: the page index is a page of
the filtered view, the references are valid, a non-empty filtered view has
rendered cards, and the filtered view is the active filter applied to the cache
unless the cache has been emptied by the start of a full categorization. -/
def Invariant (s : State) : Prop :=
  PageInRange s ∧ RefsValid s ∧ (s.filteredResults ≠ [] → s.issuesList ≠ [])
    ∧ (RefsConsistent s ∨ s.allResults = [])

end Categorize

namespace App

/-- An element of `issues` as rendered by `renderIssues`. -/
structure Issue where
  number : Int
  title : String
  html_url : String
  login : String
  createdAt : String
  labels : List String
  body : Option String
  deriving DecidableEq, Repr

/-- The body of a `classify` response, as stored in `triageResults`. -/
structure TriageResult where
  category : String
  confidence : ℚ
  reasoning : Option String
  isDuplicate : Bool
  duplicateOf : List Int
  duplicateReasoning : Option String
  reproducibility : Option String
  reproducibilityNotes : Option String
  suggestedResponse : Option String
  suggestedLabels : List String
  deriving DecidableEq, Repr

/-- A JavaScript `Map` from issue numbers: its entries in insertion order. -/
abbrev ResultMap := List (Int × TriageResult)

/-- The method `Map.prototype.set`: the value of an existing key is replaced
in place, a new key is appended. -/
def mapSet : ResultMap → Int → TriageResult → ResultMap
  | [], k, v => [(k, v)]
  | (k', v') :: rest, k, v =>
    if k' = k then (k, v) :: rest else (k', v') :: mapSet rest k v

/-- The method `Map.prototype.get`. -/
def mapGet : ResultMap → Int → Option TriageResult
  | [], _ => none
  | (k', v') :: rest, k => if k' = k then some v' else mapGet rest k

/-- The module state of `app.js` with the DOM nodes it writes.  `renderedIssues`
are the numbers of the issue cards in `issuesList` (each has a `result-N`
container), `resultPanels` the results shown in those containers. -/
structure State where
  issues : List Issue
  triageResults : ResultMap
  currentOffset : Int
  totalIssues : Int
  hasMore : Bool
  modelSelect : String
  renderedIssues : List Int
  resultPanels : ResultMap
  errorShown : Option String
  loading : Bool
  issueCount : String
  paginationShown : Bool
  prevBtnDisabled : Bool
  nextBtnDisabled : Bool
  pageInfo : String
  alerts : List String
  requests : List String
  deriving DecidableEq, Repr

/-- The constant `PAGE_SIZE`. -/
def PAGE_SIZE : Nat := 10

/-- The state after the top-level declarations have run, before the first
`loadIssues(0)` settles.  The markup of the page is not part of the sources:
the pagination bar is taken to start hidden and the lists empty. -/
def initialState : State where
  issues := []
  triageResults := []
  currentOffset := 0
  totalIssues := 0
  hasMore := false
  modelSelect := ""
  renderedIssues := []
  resultPanels := []
  errorShown := none
  loading := false
  issueCount := ""
  paginationShown := false
  prevBtnDisabled := false
  nextBtnDisabled := false
  pageInfo := ""
  alerts := []
  requests := []

/-- The function `displayTriageResult`; `none` when it throws because the
document has no `result-N` container for the issue. -/
def displayTriageResult (s : State) (issueNumber : Int) (result : TriageResult) :
    Option State :=
  if issueNumber ∈ s.renderedIssues then
    some { s with resultPanels := mapSet s.resultPanels issueNumber result }
  else none

/-- The function `triageIssue`, applied to the state in which the response is
handled; `encodeURIComponent` and the spinner on the button are left out. -/
def triageIssue (s : State) (issueNumber : Int)
    (response : Categorize.Fetched TriageResult) : State :=
  let s1 := { s with requests := s.requests ++
    [Categorize.API_BASE ++ "/classify/" ++ toString issueNumber ++ "?model=" ++ s.modelSelect] }
  let fail := fun (st : State) =>
    { st with alerts := st.alerts ++ ["Failed to triage issue. Please try again."] }
  match response with
  | .thrown _ => fail s1
  | .notOk _ _ => fail s1
  | .ok result =>
    let s2 := { s1 with triageResults := mapSet s1.triageResults issueNumber result }
    match displayTriageResult s2 issueNumber result with
    | some s3 => s3
    | none => fail s2

/-- The state after a sequence of `triageIssue` responses, given in the order
in which they resolve. -/
def resolveAll (s : State) (events : List (Int × Categorize.Fetched TriageResult)) : State :=
  events.foldl (fun st event => triageIssue st event.1 event.2) s

/-- Follows the claim's words: the most recently resolved successful response
for issue `n` among the events, if any. -/
def lastResolved (n : Int) : List (Int × Categorize.Fetched TriageResult) → Option TriageResult
  | [] => none
  | (k, response) :: rest =>
    match lastResolved n rest with
    | some later => some later
    | none =>
      match response with
      | .ok result => if k = n then some result else none
      | _ => none

/-- The body of an `issues` response. -/
structure IssuesData where
  issues : List Issue
  total : Int
  offset : Int
  hasMore : Bool
  deriving DecidableEq, Repr

/-- The function `showLoading` of `app.js`. -/
def showLoading (s : State) (show_ : Bool) : State :=
  { s with loading := show_ }

/-- The function `showError`: the list is replaced by the error message, which
removes the issue cards and their result containers. -/
def showError (s : State) (message : String) : State :=
  { s with errorShown := some message, renderedIssues := [], resultPanels := [] }

/-- The function `renderIssues`: the list is replaced by one card per issue
(or by the empty-state message), each with an empty result container. -/
def renderIssues (s : State) : State :=
  if s.issues.length = 0 then
    { s with errorShown := none, renderedIssues := [], resultPanels := [] }
  else
    { s with
      errorShown := none
      renderedIssues := s.issues.map (fun issue => issue.number)
      resultPanels := [] }

/-- The function `updateIssueCount`. -/
def updateIssueCount (s : State) : State :=
  { s with issueCount := "Showing " ++ toString (s.currentOffset + 1) ++ "-"
      ++ toString (s.currentOffset + s.issues.length) ++ " of " ++ toString s.totalIssues
      ++ " issues" }

/-- The function `updatePagination`. -/
def updatePagination (s : State) : State :=
  if s.totalIssues ≤ (PAGE_SIZE : Int) then
    { s with paginationShown := false }
  else
    let currentPage : Int := ⌊(s.currentOffset : ℚ) / (PAGE_SIZE : ℚ)⌋ + 1
    let totalPages : Int := ⌈(s.totalIssues : ℚ) / (PAGE_SIZE : ℚ)⌉
    { s with
      paginationShown := true
      prevBtnDisabled := decide (s.currentOffset = 0)
      nextBtnDisabled := !s.hasMore
      pageInfo := "Page " ++ toString currentPage ++ " of " ++ toString totalPages }

/-- The URL `loadIssues(offset)` fetches. -/
def issuesUrl (offset : Int) : String :=
  Categorize.API_BASE ++ "/issues?limit=" ++ toString PAGE_SIZE ++ "&offset=" ++ toString offset

/-- The function `loadIssues`, applied to the state in which the response is
handled. -/
def loadIssues (s : State) (offset : Int) (response : Categorize.Fetched IssuesData) : State :=
  let s1 := showLoading s true
  let s2 := { s1 with requests := s1.requests ++ [issuesUrl offset] }
  match response with
  | .thrown _ => showLoading (showError s2 "Failed to load issues. Please try again.") false
  | .notOk _ _ => showLoading (showError s2 "Failed to load issues. Please try again.") false
  | .ok data =>
    let s3 := { s2 with
      issues := data.issues
      totalIssues := data.total
      currentOffset := data.offset
      hasMore := data.hasMore }
    showLoading (updatePagination (updateIssueCount (renderIssues s3))) false

/-- Whether the `previous` button can be clicked: the pagination bar is shown
and the button is not disabled. -/
def prevEnabled (s : State) : Bool :=
  s.paginationShown && !s.prevBtnDisabled

/-- Whether the `next` button can be clicked: the pagination bar is shown and
the button is not disabled. -/
def nextEnabled (s : State) : Bool :=
  s.paginationShown && !s.nextBtnDisabled

/-- A step of the triage page: a click on `refresh`, `previous` or `next`
with the outcome of the request it sends, or a settled `triageIssue`.  A
button that cannot be clicked does nothing. -/
inductive Op where
  | refresh (response : Categorize.Fetched IssuesData)
  | previous (response : Categorize.Fetched IssuesData)
  | next (response : Categorize.Fetched IssuesData)
  | triage (issueNumber : Int) (response : Categorize.Fetched TriageResult)
  deriving DecidableEq, Repr

/-- The state after one step (the click listeners of lines 33-37). -/
def Op.apply (s : State) : Op → State
  | .refresh response => loadIssues s 0 response
  | .previous response =>
    if prevEnabled s then loadIssues s (s.currentOffset - (PAGE_SIZE : Int)) response else s
  | .next response =>
    if nextEnabled s then loadIssues s (s.currentOffset + (PAGE_SIZE : Int)) response else s
  | .triage issueNumber response => triageIssue s issueNumber response

/-- The state after a sequence of steps, first step first. -/
def run (s : State) (ops : List Op) : State :=
  ops.foldl Op.apply s

/-- Whether every successful `issues` response among the steps reports an
offset that is a non-negative multiple of the page size. -/
def Op.offsetAligned : Op → Bool
  | .refresh (.ok data) => decide (0 ≤ data.offset) && decide (data.offset % 10 = 0)
  | .previous (.ok data) => decide (0 ≤ data.offset) && decide (data.offset % 10 = 0)
  | .next (.ok data) => decide (0 ≤ data.offset) && decide (data.offset % 10 = 0)
  | _ => true

end App

/-! ## Sample data used by the concrete checks -/

namespace Scenario

open Categorize

/-- A quick-triage result object for issue `number` with the given category. -/
def result (number : Int) (category : String) : Result :=
  { issue :=
      { number := number, title := "t", htmlUrl := "u", login := "a", createdAt := "d",
        comments := 0, labeled := false }
    category := category, confidence := 0.75, reasoning := "", suggestedLabels := [],
    duplicateOf := none }

/-- A quick-triage response element for issue `number` with the given
category. -/
def quick (number : Int) (category : String) : QuickResult :=
  { issueNumber := number, issueTitle := "t", issueUrl := "u", author := "a", createdAt := "d",
    category := category, reason := "" }

/-- A full-categorization result for issue `number` with the given category
and confidence. -/
def full (number : Int) (category : String) (confidence : ℚ) : Result :=
  { result number category with confidence := confidence }

/-- A state whose cache is the given objects, before any render. -/
def withCache (objs : List Result) : State :=
  storeResults initialState objs

/-- The cache `[#1 BUG, #2 QUESTION, #3 BUG]`. -/
def threeResults : State :=
  withCache [result 1 "BUG", result 2 "QUESTION", result 3 "BUG"]

/-- Eleven cached bug reports, shown unfiltered on page 0. -/
def elevenResults : State :=
  filterByCategory (withCache ((List.range 11).map (fun i => result (i + 1) "BUG"))) "all"

/-- Issues #1 (a bug) and #2 (a question) quick-triaged and shown, then the
filter set to `BUG`, which takes the card of #2 off the page. -/
def questionFilteredOut : State :=
  run initialState
    [.startQuickTriage true (.ok [quick 1 "BUG", quick 2 "QUESTION"]),
      .filterByCategory "BUG"]

/-- Issue #1 quick-triaged, shown, and its labels updated with success. -/
def labeledOne : State :=
  run initialState
    [.startQuickTriage true (.ok [quick 1 "BUG"]),
      .updateLabels 1 "BUG" true (.ok ⟨true, none⟩)]

/-- Issue #1 quick-triaged and shown, then a full categorization started
whose request is answered with status 500. -/
def failedCategorization : State :=
  run initialState
    [.startQuickTriage true (.ok [quick 1 "BUG"]),
      .startCategorizationBegin,
      .startCategorizationResolve (.notOk 500 none)]

end Scenario

/-! ## Frame lemmas for rendering -/

open Categorize

theorem deref_filter_hasCategory (heap : List Result) (category : String) (refs : List Ref) :
    deref heap (refs.filter (hasCategory heap category))
      = (deref heap refs).filter (fun result => decide (result.category = category)) := by
  induction refs with
  | nil => rfl
  | cons r rest ih =>
    unfold deref at ih ⊢
    cases h : heap[r]? with
    | none => simp [List.filter_cons, hasCategory, h, ih]
    | some result =>
      by_cases hc : result.category = category
      · simp [List.filter_cons, hasCategory, h, hc, ih]
      · simp [List.filter_cons, hasCategory, h, hc, ih]

theorem updatePaginationUI_frame (s : State) :
    (updatePaginationUI s).heap = s.heap ∧ (updatePaginationUI s).allResults = s.allResults
      ∧ (updatePaginationUI s).filteredResults = s.filteredResults
      ∧ (updatePaginationUI s).currentPage = s.currentPage
      ∧ (updatePaginationUI s).currentFilter = s.currentFilter
      ∧ (updatePaginationUI s).categoryCounts = s.categoryCounts := by
  unfold updatePaginationUI
  split_ifs <;> simp

theorem displayCurrentPage_frame (s : State) :
    (displayCurrentPage s).heap = s.heap ∧ (displayCurrentPage s).allResults = s.allResults
      ∧ (displayCurrentPage s).filteredResults = s.filteredResults
      ∧ (displayCurrentPage s).currentPage = s.currentPage
      ∧ (displayCurrentPage s).currentFilter = s.currentFilter
      ∧ (displayCurrentPage s).categoryCounts = s.categoryCounts := by
  unfold displayCurrentPage
  simp only []
  split_ifs <;> simp [updatePaginationUI_frame]

@[simp] theorem displayCurrentPage_heap (s : State) : (displayCurrentPage s).heap = s.heap :=
  (displayCurrentPage_frame s).1

@[simp] theorem displayCurrentPage_allResults (s : State) :
    (displayCurrentPage s).allResults = s.allResults :=
  (displayCurrentPage_frame s).2.1

@[simp] theorem displayCurrentPage_filteredResults (s : State) :
    (displayCurrentPage s).filteredResults = s.filteredResults :=
  (displayCurrentPage_frame s).2.2.1

@[simp] theorem displayCurrentPage_currentPage (s : State) :
    (displayCurrentPage s).currentPage = s.currentPage :=
  (displayCurrentPage_frame s).2.2.2.1

@[simp] theorem displayCurrentPage_currentFilter (s : State) :
    (displayCurrentPage s).currentFilter = s.currentFilter :=
  (displayCurrentPage_frame s).2.2.2.2.1

@[simp] theorem displayCurrentPage_categoryCounts (s : State) :
    (displayCurrentPage s).categoryCounts = s.categoryCounts :=
  (displayCurrentPage_frame s).2.2.2.2.2

@[simp] theorem displayCurrentPage_cache (s : State) : (displayCurrentPage s).cache = s.cache := by
  simp [State.cache]

@[simp] theorem displayCurrentPage_view (s : State) : (displayCurrentPage s).view = s.view := by
  simp [State.view]

/-! ## The category filter -/

theorem filterByCategory_heap (s : State) (category : String) :
    (filterByCategory s category).heap = s.heap := by
  unfold filterByCategory
  by_cases h : category = "all" <;> simp [h]

theorem filterByCategory_allResults (s : State) (category : String) :
    (filterByCategory s category).allResults = s.allResults := by
  unfold filterByCategory
  by_cases h : category = "all" <;> simp [h]

theorem filterByCategory_filteredResults (s : State) (category : String) :
    (filterByCategory s category).filteredResults
      = if category = "all" then s.allResults
        else s.allResults.filter (hasCategory s.heap category) := by
  unfold filterByCategory
  by_cases h : category = "all" <;> simp [h]

theorem filterByCategory_currentFilter (s : State) (category : String) :
    (filterByCategory s category).currentFilter = category := by
  unfold filterByCategory
  by_cases h : category = "all" <;> simp [h]

theorem filterByCategory_currentPage (s : State) (category : String) :
    (filterByCategory s category).currentPage = 0 := by
  unfold filterByCategory
  by_cases h : category = "all" <;> simp [h]

theorem filterByCategory_categoryCounts (s : State) (category : String) :
    (filterByCategory s category).categoryCounts = s.categoryCounts := by
  unfold filterByCategory
  by_cases h : category = "all" <;> simp [h]

theorem filterByCategory_cache (s : State) (category : String) :
    (filterByCategory s category).cache = s.cache := by
  simp [State.cache, filterByCategory_heap, filterByCategory_allResults]

theorem filterByCategory_view (s : State) (category : String) :
    (filterByCategory s category).view
      = if category = "all" then s.cache
        else s.cache.filter (fun result => decide (result.category = category)) := by
  simp only [State.view, State.cache, filterByCategory_heap, filterByCategory_filteredResults]
  by_cases h : category = "all"
  · simp [h]
  · simp only [h, if_false]
    exact deref_filter_hasCategory s.heap category s.allResults

/-- C1: `filterByCategory('all')` makes the filtered view the whole cache in its
order, `filterByCategory(X)` for any other `X` makes it the cached results of
category `X` in cache order, the cache itself is not touched, and the cache
`[#1 BUG, #2 QUESTION, #3 BUG]` filtered by `BUG` gives `[#1, #3]`. -/
theorem filterByCategory_view_is_category_subsequence (s : State) (X : String) :
    (filterByCategory s "all").view = s.cache
      ∧ (filterByCategory s X).view
          = (if X = "all" then s.cache
             else s.cache.filter (fun result => decide (result.category = X)))
      ∧ List.Sublist (filterByCategory s X).view s.cache
      ∧ (filterByCategory s X).cache = s.cache
      ∧ (filterByCategory Scenario.threeResults "BUG").view
          = [Scenario.result 1 "BUG", Scenario.result 3 "BUG"] := by
  refine ⟨?_, filterByCategory_view s X, ?_, filterByCategory_cache s X, rfl⟩
  · simp [filterByCategory_view]
  · rw [filterByCategory_view]
    split_ifs
    · exact List.Sublist.refl _
    · exact List.filter_sublist _

/-! ## The pager -/

theorem ceil_div_pageSize (n : Nat) :
    ⌈((n : ℚ) / (pageSize : ℚ))⌉ = (((n + 9) / 10 : Nat) : Int) := by
  have h1 : 10 * ((n + 9) / 10) ≤ n + 9 := Nat.mul_div_le (n + 9) 10
  have h2 : n + 9 < 10 * ((n + 9) / 10) + 10 := by
    have := Nat.lt_mul_div_succ (n + 9) (show 0 < 10 by decide)
    omega
  generalize (n + 9) / 10 = k at h1 h2
  have h3 : (n : ℚ) ≤ 10 * k := by
    have : n ≤ 10 * k := by omega
    exact_mod_cast this
  have h4 : (10 : ℚ) * k < n + 10 := by
    have : 10 * k < n + 10 := by omega
    exact_mod_cast this
  rw [Int.ceil_eq_iff]
  have hp : ((pageSize : Nat) : ℚ) = 10 := by norm_num [pageSize]
  rw [hp]
  constructor
  · rw [lt_div_iff₀ (by norm_num)]
    push_cast
    linarith
  · rw [div_le_iff₀ (by norm_num)]
    push_cast
    linarith

theorem totalFilteredPages_eq (s : State) :
    totalFilteredPages s = (((s.filteredResults.length + 9) / 10 : Nat) : Int) :=
  ceil_div_pageSize s.filteredResults.length

theorem previousPage_first (s : State) (h : s.currentPage = 0) : previousPage s = s := by
  simp [previousPage, h]

theorem previousPage_currentPage (s : State) (h : 0 < s.currentPage) :
    (previousPage s).currentPage = s.currentPage - 1 := by
  simp [previousPage, h]

theorem nextPage_last (s : State)
    (h : (s.filteredResults.length + 9) / 10 ≤ s.currentPage + 1) : nextPage s = s := by
  unfold nextPage
  rw [totalFilteredPages_eq]
  have : ¬ ((s.currentPage : Int) < (((s.filteredResults.length + 9) / 10 : Nat) : Int) - 1) := by
    omega
  rw [if_neg this]

theorem nextPage_currentPage (s : State)
    (h : s.currentPage + 1 < (s.filteredResults.length + 9) / 10) :
    (nextPage s).currentPage = s.currentPage + 1 := by
  unfold nextPage
  rw [totalFilteredPages_eq]
  have : (s.currentPage : Int) < (((s.filteredResults.length + 9) / 10 : Nat) : Int) - 1 := by
    omega
  rw [if_pos this, displayCurrentPage_currentPage]

/-- C2: with `N` filtered results the pager's page count is `T = ceil(N / 10)`
(the least `T` with `N ≤ 10 * T`); `previousPage` at page 0 and `nextPage` at
page `T - 1`, or at any page when `N = 0`, return the state unchanged; from any
other page of the view they move the page index by exactly one. -/
theorem pager_moves_by_one_within_pages (s : State) :
    totalFilteredPages s = (((s.filteredResults.length + 9) / 10 : Nat) : Int)
      ∧ s.filteredResults.length ≤ 10 * ((s.filteredResults.length + 9) / 10)
      ∧ 10 * ((s.filteredResults.length + 9) / 10) < s.filteredResults.length + 10
      ∧ (s.currentPage = 0 → previousPage s = s)
      ∧ (s.currentPage + 1 = (s.filteredResults.length + 9) / 10 → nextPage s = s)
      ∧ (s.filteredResults.length = 0 → nextPage s = s)
      ∧ (0 < s.currentPage → (previousPage s).currentPage + 1 = s.currentPage)
      ∧ (s.currentPage + 1 < (s.filteredResults.length + 9) / 10 →
          (nextPage s).currentPage = s.currentPage + 1) := by
  refine ⟨totalFilteredPages_eq s, by omega, by omega, previousPage_first s, ?_, ?_, ?_,
    nextPage_currentPage s⟩
  · intro h
    exact nextPage_last s (by omega)
  · intro h
    exact nextPage_last s (by omega)
  · intro h
    rw [previousPage_currentPage s h]
    omega

/-- C2 at eleven results on page 0: `previousPage` changes nothing and
`nextPage` moves to page 1; with no results `nextPage` changes nothing. -/
theorem pager_moves_by_one_within_pages_witness :
    previousPage Scenario.elevenResults = Scenario.elevenResults
      ∧ (nextPage Scenario.elevenResults).currentPage = 1
      ∧ nextPage initialState = initialState :=
  ⟨(pager_moves_by_one_within_pages Scenario.elevenResults).2.2.2.1 (by decide),
    (pager_moves_by_one_within_pages Scenario.elevenResults).2.2.2.2.2.2.2 (by decide),
    (pager_moves_by_one_within_pages initialState).2.2.2.2.2.1 (by decide)⟩

/-! ## Ingestion -/

theorem deref_append_range (heap objs : List Result) (n : Nat) (hn : n = objs.length) :
    deref (heap ++ objs) (List.range' heap.length n) = objs := by
  subst hn
  induction objs generalizing heap with
  | nil => simp [deref]
  | cons o os ih =>
    have h := ih (heap ++ [o])
    simp only [List.append_assoc, List.singleton_append, List.length_append, List.length_singleton]
      at h
    simp only [List.length_cons, List.range'_succ, deref, List.filterMap_cons]
    have hget : (heap ++ o :: os)[heap.length]? = some o := by
      rw [List.getElem?_append_right (le_refl _)]
      simp
    rw [hget]
    simp only [deref] at h
    rw [h]

theorem storeResults_cache (s : State) (objs : List Result) :
    (storeResults s objs).cache = objs := by
  simp [State.cache, storeResults, deref_append_range]

theorem startQuickTriage_ok_cache (s : State) (results : List QuickResult) :
    (startQuickTriage s true (.ok results)).cache = results.map quickTriageResult := by
  simp only [startQuickTriage, if_true]
  rw [filterByCategory_cache]
  simp [State.cache, updateSummary, alert, showLoading, storeResults, fetch, deref_append_range]

theorem startQuickTriage_ok_view (s : State) (results : List QuickResult) :
    (startQuickTriage s true (.ok results)).view
      = if s.currentFilter = "all" then results.map quickTriageResult
        else (results.map quickTriageResult).filter
          (fun result => decide (result.category = s.currentFilter)) := by
  simp only [startQuickTriage, if_true]
  rw [filterByCategory_view]
  simp [State.cache, updateSummary, alert, showLoading, storeResults, fetch, deref_append_range]

theorem loadQuickTriageResults_ok_cache (s : State) (results : List QuickResult)
    (h : results ≠ []) :
    (loadQuickTriageResults s (.ok results)).cache = results.map loadedQuickTriageResult := by
  have hlen : results.length > 0 := List.length_pos.mpr h
  simp only [loadQuickTriageResults, hlen, if_true]
  rw [filterByCategory_cache]
  simp [State.cache, updateSummary, storeResults, fetch, deref_append_range]

theorem loadQuickTriageResults_ok_view (s : State) (results : List QuickResult)
    (h : results ≠ []) :
    (loadQuickTriageResults s (.ok results)).view
      = if s.currentFilter = "all" then results.map loadedQuickTriageResult
        else (results.map loadedQuickTriageResult).filter
          (fun result => decide (result.category = s.currentFilter)) := by
  have hlen : results.length > 0 := List.length_pos.mpr h
  simp only [loadQuickTriageResults, hlen, if_true]
  rw [filterByCategory_view]
  simp [State.cache, updateSummary, storeResults, fetch, deref_append_range]

theorem startCategorization_ok_cache (s : State) (data : CategorizeData) :
    (startCategorization s true (.ok data)).cache = data.results := by
  by_cases h : data.results.length > 0
  · simp only [startCategorization, startCategorizationResolve, categorizeAllPages, h, if_true]
    rw [filterByCategory_cache]
    simp [State.cache, updateSummary, alert, showLoading, storeResults, fetch,
      startCategorizationBegin, deref_append_range]
  · simp only [startCategorization, startCategorizationResolve, categorizeAllPages, h, if_true,
      if_false]
    rw [filterByCategory_cache]
    have : data.results = [] := by
      cases hr : data.results with
      | nil => rfl
      | cons a b => simp [hr] at h
    simp [State.cache, updateSummary, alert, showLoading, fetch,
      startCategorizationBegin, this, deref]

theorem startCategorization_ok_view (s : State) (data : CategorizeData) :
    (startCategorization s true (.ok data)).view
      = if s.currentFilter = "all" then data.results
        else data.results.filter (fun result => decide (result.category = s.currentFilter)) := by
  by_cases h : data.results.length > 0
  · simp only [startCategorization, startCategorizationResolve, categorizeAllPages, h, if_true]
    rw [filterByCategory_view]
    simp [State.cache, updateSummary, alert, showLoading, storeResults, fetch,
      startCategorizationBegin, deref_append_range]
  · simp only [startCategorization, startCategorizationResolve, categorizeAllPages, h, if_true,
      if_false]
    rw [filterByCategory_view]
    have : data.results = [] := by
      cases hr : data.results with
      | nil => rfl
      | cons a b => simp [hr] at h
    simp [State.cache, updateSummary, alert, showLoading, fetch,
      startCategorizationBegin, this, deref]

/-- C3: on a quick-triage response whose only result has category `FEATURE`,
`startQuickTriage` counts it under `FEATURE_REQUEST` but stores it with
category `FEATURE`, so `filterByCategory('FEATURE_REQUEST')` shows nothing;
`loadQuickTriageResults` stores the same response as `FEATURE_REQUEST` and the
filter shows it; full categorization stores `FEATURE` and counts nothing. -/
theorem startQuickTriage_stores_FEATURE_unnormalized :
    ((startQuickTriage initialState true (.ok [Scenario.quick 1 "FEATURE"])).cache.map
        (fun result => result.category) = ["FEATURE"]
      ∧ (startQuickTriage initialState true
          (.ok [Scenario.quick 1 "FEATURE"])).categoryCounts.FEATURE_REQUEST = 1
      ∧ (filterByCategory (startQuickTriage initialState true (.ok [Scenario.quick 1 "FEATURE"]))
          "FEATURE_REQUEST").view = [])
      ∧ ((loadQuickTriageResults initialState (.ok [Scenario.quick 1 "FEATURE"])).cache.map
          (fun result => result.category) = ["FEATURE_REQUEST"]
        ∧ (loadQuickTriageResults initialState
            (.ok [Scenario.quick 1 "FEATURE"])).categoryCounts.FEATURE_REQUEST = 1
        ∧ ((filterByCategory (loadQuickTriageResults initialState
            (.ok [Scenario.quick 1 "FEATURE"])) "FEATURE_REQUEST").view.map
              (fun result => result.issue.number)) = [1])
      ∧ ((startCategorization initialState true
            (.ok ⟨[Scenario.result 1 "FEATURE"], 1⟩)).cache.map
          (fun result => result.category) = ["FEATURE"]
        ∧ (startCategorization initialState true
            (.ok ⟨[Scenario.result 1 "FEATURE"], 1⟩)).categoryCounts = zeroCounts) := by
  decide

/-! ## Confidence -/

theorem toFixed0_intCast (c : Int) : toFixed0 (c : ℚ) = c := by
  unfold toFixed0
  split_ifs with h
  · have : ⌊-(c : ℚ) + 1 / 2⌋ = -c := by
      rw [Int.floor_eq_iff]
      push_cast
      constructor <;> linarith
    rw [this]
    simp
  · rw [Int.floor_eq_iff]
    constructor <;> linarith

theorem log2_one : Nat.log2 1 = 0 := by
  rw [Nat.log2]
  simp

theorem log2_four : Nat.log2 4 = 2 := by
  rw [Nat.log2]
  simp
  rw [Nat.log2]
  simp
  rw [Nat.log2]
  simp

theorem roundToDouble_intCast (c : Int) (h : c.natAbs ≤ 2 ^ 53) :
    roundToDouble (c : ℚ) = c := by
  unfold roundToDouble
  rw [if_pos]
  rw [Rat.den_intCast, Rat.num_intCast, log2_one]
  exact ⟨rfl, h⟩

theorem roundToDouble_three_quarters : roundToDouble (3 / 4) = 3 / 4 := by
  have hn : (3 / 4 : ℚ).num = 3 := by norm_num
  have hd : (3 / 4 : ℚ).den = 4 := by norm_num
  unfold roundToDouble
  rw [if_pos]
  rw [hn, hd, log2_four]
  exact ⟨rfl, by decide⟩

theorem confidencePercentOf_quick : confidencePercentOf (3 / 4) = 75 := by
  unfold confidencePercentOf
  rw [roundToDouble_three_quarters]
  have h75 : (3 / 4 : ℚ) * 100 = ((75 : Int) : ℚ) := by norm_num
  rw [h75, roundToDouble_intCast 75 (by decide), toFixed0_intCast]

theorem confidencePercentOf_intCast (c : Int) (h : (100 * c).natAbs ≤ 2 ^ 53) :
    confidencePercentOf (c : ℚ) = 100 * c := by
  have hc : c.natAbs ≤ 2 ^ 53 := by omega
  unfold confidencePercentOf
  rw [roundToDouble_intCast c hc]
  have hp : (c : ℚ) * 100 = ((100 * c : Int) : ℚ) := by
    push_cast
    ring
  rw [hp, roundToDouble_intCast (100 * c) h, toFixed0_intCast]

theorem confidencePercent_quick (result : Result) (h : result.confidence = 0.75) :
    (createIssueCard result).confidencePercent = 75 := by
  have h34 : result.confidence = 3 / 4 := by
    rw [h]
    norm_num
  simp only [createIssueCard, h34, confidencePercentOf_quick]

theorem confidencePercent_intCast (result : Result) (c : Int) (h : result.confidence = c)
    (hb : (100 * c).natAbs ≤ 2 ^ 53) :
    (createIssueCard result).confidencePercent = 100 * c := by
  simp only [createIssueCard, h, confidencePercentOf_intCast c hb]

/-- C4 as stated fails: the result quick triage stores for issue #1 has
confidence `0.75`, not `75`. -/
theorem quick_triage_confidence_is_not_75 :
    (startQuickTriage initialState true (.ok [Scenario.quick 1 "BUG"])).cache
        = [Scenario.result 1 "BUG"]
      ∧ (Scenario.result 1 "BUG").confidence = 3 / 4
      ∧ (Scenario.result 1 "BUG").confidence ≠ 75 := by
  refine ⟨rfl, ?_, ?_⟩ <;> norm_num [Scenario.result]

/-- C4 amended: every result stored by `startQuickTriage` and, for a non-empty
response, by `loadQuickTriageResults` has the fractional confidence `0.75`;
the scaling by 100 happens when the card is rendered, where
`createIssueCard` shows it as `75`. -/
theorem quick_triage_stores_fraction_rendered_as_75 (s : State) (results : List QuickResult) :
    (∀ result ∈ (startQuickTriage s true (.ok results)).cache,
        result.confidence = 3 / 4 ∧ (createIssueCard result).confidencePercent = 75)
      ∧ (results ≠ [] → ∀ result ∈ (loadQuickTriageResults s (.ok results)).cache,
        result.confidence = 3 / 4 ∧ (createIssueCard result).confidencePercent = 75) := by
  constructor
  · rw [startQuickTriage_ok_cache]
    intro result hmem
    obtain ⟨r, _, rfl⟩ := List.mem_map.mp hmem
    exact ⟨by norm_num [quickTriageResult], confidencePercent_quick _ rfl⟩
  · intro hne
    rw [loadQuickTriageResults_ok_cache s results hne]
    intro result hmem
    obtain ⟨r, _, rfl⟩ := List.mem_map.mp hmem
    exact ⟨by norm_num [loadedQuickTriageResult], confidencePercent_quick _ rfl⟩

/-- C4 amended, at the response `[#1 BUG]` loaded into the initial state. -/
theorem quick_triage_stores_fraction_rendered_as_75_witness :
    [Scenario.quick 1 "BUG"] ≠ []
      ∧ (loadedQuickTriageResult (Scenario.quick 1 "BUG")).confidence = 3 / 4
      ∧ (createIssueCard (loadedQuickTriageResult (Scenario.quick 1 "BUG"))).confidencePercent
          = 75 :=
  ⟨by decide,
    (quick_triage_stores_fraction_rendered_as_75 initialState [Scenario.quick 1 "BUG"]).2
      (by decide) _
      (by rw [loadQuickTriageResults_ok_cache _ _ (by decide)]; exact List.mem_singleton.mpr rfl)⟩

theorem parseInt_empty : parseInt "" = none := by decide

theorem searchIssue_ok_searchResult (s : State) (value : String) (n : Int) (data : SearchData)
    (issue : SearchIssue) (triage : SearchTriage) (hp : parseInt value = some n) (hn : 0 < n)
    (hs : data.success = true) (hi : data.issue = some issue)
    (ht : data.triageResult = some triage) :
    (searchIssue s value (.ok data)).searchResult = some
      { issueNumber := issue.number, url := issue.url, title := issue.title,
        categoryLabel := formatCategory triage.category,
        confidencePercent := triage.confidence,
        reasoning := triage.reasoning,
        suggestedLabels := triage.suggestedLabels,
        buttonCategory := triage.category } := by
  have hv : value ≠ "" := by
    intro h
    rw [h, parseInt_empty] at hp
    exact Option.noConfusion hp
  have hn2 : ¬ n ≤ 0 := by omega
  simp [searchIssue, hp, hv, hn2, hs, displaySearchResult, hi, ht]

/-- C5 on the code: a full-categorization run stores every result as the
server sent it and the search panel shows the confidence of a search response
unchanged, as the claim says; but on the response whose one result has
confidence `85` the issue card shows `8500`, not `85`, while a search answered
with confidence `85` shows `85`. -/
theorem issue_card_shows_full_confidence_times_100 (s : State) (data : CategorizeData)
    (value : String) (n : Int) (found : SearchData) (issue : SearchIssue)
    (triage : SearchTriage) :
    (startCategorization s true (.ok data)).cache = data.results
      ∧ (parseInt value = some n → 0 < n → found.success = true → found.issue = some issue →
          found.triageResult = some triage →
          (searchIssue s value (.ok found)).searchResult.map (fun panel => panel.confidencePercent)
            = some triage.confidence)
      ∧ ((startCategorization initialState true
            (.ok ⟨[Scenario.full 1 "BUG" 85], 1⟩)).cache.map (fun result => result.confidence)
          = [85]
        ∧ (startCategorization initialState true
            (.ok ⟨[Scenario.full 1 "BUG" 85], 1⟩)).issuesList.map
              (fun card => card.confidencePercent) = [8500]
        ∧ (searchIssue initialState "42"
            (.ok ⟨true, some ⟨42, "t", "u"⟩, some ⟨"BUG", 85, "", []⟩, none, none⟩)).searchResult.map
              (fun panel => panel.confidencePercent) = some 85) := by
  refine ⟨startCategorization_ok_cache s data, ?_, rfl, ?_, ?_⟩
  · intro hp hn hs hi ht
    rw [searchIssue_ok_searchResult s value n found issue triage hp hn hs hi ht]
    rfl
  · have h : (startCategorization initialState true
        (.ok ⟨[Scenario.full 1 "BUG" 85], 1⟩)).issuesList
          = [createIssueCard (Scenario.full 1 "BUG" 85)] := rfl
    rw [h]
    have hc := confidencePercent_intCast (Scenario.full 1 "BUG" 85) 85
      (by norm_num [Scenario.full]) (by decide)
    simp [hc]
  · rw [searchIssue_ok_searchResult initialState "42" 42 _ ⟨42, "t", "u"⟩ ⟨"BUG", 85, "", []⟩
      (by decide) (by decide) rfl rfl rfl]
    rfl

/-! ## Search validation -/

theorem searchIssue_rejected (s : State) (value : String) (response : Fetched SearchData)
    (h : ∀ n, parseInt value = some n → n ≤ 0) :
    (searchIssue s value response).requests = s.requests
      ∧ (searchIssue s value response).searchError
          = some "Please enter a valid positive issue number" := by
  unfold searchIssue
  cases hp : parseInt value with
  | none => simp [displaySearchError, clearSearchError]
  | some n =>
    have hn : n ≤ 0 := h n hp
    simp [hn, displaySearchError, clearSearchError]

theorem searchIssue_dispatched (s : State) (value : String) (response : Fetched SearchData)
    (n : Int) (hp : parseInt value = some n) (hn : 0 < n) :
    (searchIssue s value response).requests
      = s.requests ++ [API_BASE ++ "/search-issue/" ++ numberText n] := by
  have hv : value ≠ "" := by
    intro h
    rw [h, parseInt_empty] at hp
    exact Option.noConfusion hp
  have hn2 : ¬ n ≤ 0 := by omega
  unfold searchIssue
  simp only [hp, hv, hn2, or_self, if_false]
  cases response with
  | thrown m => simp [displaySearchError, showLoading, fetch, clearSearchError]
  | notOk st body =>
    cases body <;> simp [displaySearchError, showLoading, fetch, clearSearchError]
  | ok data =>
    by_cases hs : data.success = true
    · cases hi : data.issue <;> cases ht : data.triageResult <;>
        simp [hs, hi, ht, displaySearchResult, displaySearchError, showLoading, fetch,
          clearSearchError]
    · simp [hs, displaySearchError, showLoading, fetch, clearSearchError]

theorem numberText_small (n : Int) (h : n.natAbs ≤ 2 ^ 53) : numberText n = toString n := by
  unfold numberText
  rw [if_pos h]

theorem isWhiteSpace_of_digit (c : Char) (h : 48 ≤ c.toNat ∧ c.toNat ≤ 57) :
    isWhiteSpace c = false := by
  unfold isWhiteSpace
  simp only [Bool.or_eq_false_iff, Bool.and_eq_false_iff, decide_eq_false_iff_not]
  omega

theorem digitValue_of_digit (c : Char) (h : 48 ≤ c.toNat ∧ c.toNat ≤ 57) :
    digitValue c = some (c.toNat - 48) := by
  unfold digitValue
  simp [h]

theorem takeDigits_of_digits (cs : List Char) (h : ∀ c ∈ cs, 48 ≤ c.toNat ∧ c.toNat ≤ 57) :
    takeDigits 10 cs = cs.map (fun c => c.toNat - 48) := by
  induction cs with
  | nil => rfl
  | cons c rest ih =>
    have hc := h c (List.mem_cons_self _ _)
    have hlt : c.toNat - 48 < 10 := by omega
    simp only [takeDigits, digitValue_of_digit c hc, hlt, if_true, List.map_cons]
    rw [ih (fun d hd => h d (List.mem_cons_of_mem _ hd))]

theorem digitsValue_pos_aux (ds : List Nat) (acc : Nat) (h : 0 < acc ∨ ∃ d ∈ ds, 0 < d) :
    0 < ds.foldl (fun a d => a * 10 + d) acc := by
  induction ds generalizing acc with
  | nil =>
    rcases h with h | ⟨d, hd, _⟩
    · exact h
    · cases hd
  | cons d rest ih =>
    simp only [List.foldl_cons]
    apply ih
    rcases h with h | ⟨e, he, hpos⟩
    · left; omega
    · rcases List.mem_cons.mp he with rfl | hr
      · left; omega
      · right; exact ⟨e, hr, hpos⟩

theorem parseInt_of_digits (text : String) (hne : text.toList ≠ [])
    (h : ∀ c ∈ text.toList, 48 ≤ c.toNat ∧ c.toNat ≤ 57) :
    parseInt text = some ((digitsValue 10 (text.toList.map (fun c => c.toNat - 48)) : Nat) : Int) := by
  unfold parseInt
  cases hcs : text.toList with
  | nil => exact absurd hcs hne
  | cons c rest =>
    rw [hcs] at h
    have hc := h c (List.mem_cons_self _ _)
    have hdrop : List.dropWhile isWhiteSpace (c :: rest) = c :: rest := by
      simp [List.dropWhile_cons, isWhiteSpace_of_digit c hc]
    rw [hdrop]
    have hminus : c ≠ '-' := by
      intro e; rw [e] at hc; revert hc; decide
    have hplus : c ≠ '+' := by
      intro e; rw [e] at hc; revert hc; decide
    have hsigned : (match c :: rest with
        | '-' :: rest => ((-1 : Int), rest)
        | '+' :: rest => (1, rest)
        | _ => (1, c :: rest)) = (1, c :: rest) := by
      split
      · rename_i heq; simp at heq; exact absurd heq.1 hminus
      · rename_i heq; simp at heq; exact absurd heq.1 hplus
      · rfl
    simp only [hsigned]
    have hbased : (match c :: rest with
        | '0' :: 'x' :: rest => (16, rest)
        | '0' :: 'X' :: rest => (16, rest)
        | _ => (10, c :: rest)) = (10, c :: rest) := by
      split
      · rename_i heq
        simp at heq
        have hx : 48 ≤ 'x'.toNat ∧ 'x'.toNat ≤ 57 := h 'x' (by rw [heq.2]; simp)
        exact absurd hx (by decide)
      · rename_i heq
        simp at heq
        have hx : 48 ≤ 'X'.toNat ∧ 'X'.toNat ≤ 57 := h 'X' (by rw [heq.2]; simp)
        exact absurd hx (by decide)
      · rfl
    simp only [hbased]
    rw [takeDigits_of_digits (c :: rest) h]
    simp

theorem parseInt_of_numeral (text : String) (h : isPositiveIntegerNumeral text = true) :
    ∃ n, parseInt text = some n ∧ 0 < n := by
  unfold isPositiveIntegerNumeral at h
  simp only [Bool.and_eq_true, Bool.not_eq_true', List.isEmpty_eq_false, List.all_eq_true,
    List.any_eq_true, decide_eq_true_eq, bne_iff_ne, ne_eq] at h
  obtain ⟨⟨hne, hdig⟩, c, hc, hc0⟩ := h
  refine ⟨_, parseInt_of_digits text hne hdig, ?_⟩
  have hpos : 0 < digitsValue 10 (text.toList.map (fun c => c.toNat - 48)) := by
    apply digitsValue_pos_aux
    right
    refine ⟨c.toNat - 48, List.mem_map.mpr ⟨c, hc, rfl⟩, ?_⟩
    have h48 : c.toNat ≠ 48 := by
      intro e
      apply hc0
      rw [← Char.ofNat_toNat c, e]
    have := hdig c hc
    omega
  exact_mod_cast hpos

/-- C6 as stated fails: the text `12abc` is not a numeral, yet `searchIssue`
sends the request for issue 12. -/
theorem searchIssue_dispatches_for_12abc :
    isPositiveIntegerNumeral "12abc" = false
      ∧ (searchIssue initialState "12abc" (.thrown "")).requests
          = ["/api/triage/search-issue/12"]
      ∧ (searchIssue initialState "12abc" (.thrown "")).searchError
          ≠ some "Please enter a valid positive issue number" := by
  decide

/-- C6 amended: `searchIssue` sends exactly one request when `parseInt` of the
text is a positive integer, which holds for every numeral of a positive
integer, and for an integer up to `2 ^ 53` the request is the one for that
issue; in every other case, among them the empty text, `abc`, `0` and `-5`, it
sends nothing and shows `Please enter a valid positive issue number`. -/
theorem searchIssue_dispatches_iff_parseInt_positive (s : State) (value : String)
    (response : Fetched SearchData) :
    (∀ n, parseInt value = some n → 0 < n →
        ∃ url, (searchIssue s value response).requests = s.requests ++ [url])
      ∧ (∀ n, parseInt value = some n → 0 < n → n ≤ 2 ^ 53 →
          (searchIssue s value response).requests
            = s.requests ++ [API_BASE ++ "/search-issue/" ++ toString n])
      ∧ ((∀ n, parseInt value = some n → n ≤ 0) →
          (searchIssue s value response).requests = s.requests
            ∧ (searchIssue s value response).searchError
              = some "Please enter a valid positive issue number")
      ∧ (isPositiveIntegerNumeral value = true →
          ∃ url, (searchIssue s value response).requests = s.requests ++ [url])
      ∧ (∀ text ∈ ["", "abc", "0", "-5"],
          (searchIssue s text response).requests = s.requests
            ∧ (searchIssue s text response).searchError
              = some "Please enter a valid positive issue number") := by
  refine ⟨?_, ?_, searchIssue_rejected s value response, ?_, ?_⟩
  · intro n hp hn
    exact ⟨_, searchIssue_dispatched s value response n hp hn⟩
  · intro n hp hn hb
    rw [searchIssue_dispatched s value response n hp hn, numberText_small n (by omega)]
  · intro h
    obtain ⟨n, hp, hn⟩ := parseInt_of_numeral value h
    exact ⟨_, searchIssue_dispatched s value response n hp hn⟩
  · intro text ht
    apply searchIssue_rejected
    simp only [List.mem_cons, List.mem_singleton, List.not_mem_nil, or_false] at ht
    rcases ht with rfl | rfl | rfl | rfl <;> decide

/-- C6 amended, at the texts `42` and `abc` in the initial state. -/
theorem searchIssue_dispatches_iff_parseInt_positive_witness :
    (searchIssue initialState "42" (.thrown "")).requests
        = initialState.requests ++ [API_BASE ++ "/search-issue/" ++ toString (42 : Int)]
      ∧ (searchIssue initialState "abc" (.thrown "")).requests = initialState.requests :=
  ⟨(searchIssue_dispatches_iff_parseInt_positive initialState "42" (.thrown "")).2.1 42
      (by decide) (by decide) (by decide),
    ((searchIssue_dispatches_iff_parseInt_positive initialState "abc" (.thrown "")).2.2.1
      (by decide)).1⟩

/-! ## Label updates -/

theorem deref_set_of_not_mem (heap : List Result) (a : Ref) (x : Result) (refs : List Ref)
    (h : a ∉ refs) : deref (heap.set a x) refs = deref heap refs := by
  induction refs with
  | nil => rfl
  | cons b rest ih =>
    have hb : a ≠ b := fun e => h (e ▸ List.mem_cons_self _ _)
    have hrest : a ∉ rest := fun m => h (List.mem_cons_of_mem _ m)
    simp only [deref, List.filterMap_cons, List.getElem?_set_ne hb]
    have := ih hrest
    simp only [deref] at this
    rw [this]

theorem markLabeled_getElem?_ne (heap : List Result) (r a : Ref) (h : r ≠ a) :
    (markLabeled heap r)[a]? = heap[a]? := by
  unfold markLabeled
  cases heap[r]? with
  | none => rfl
  | some x => simp [List.getElem?_set_ne h]

theorem deref_markLabeled (heap : List Result) (n : Int) (refs : List Ref) (r : Ref)
    (hnd : refs.Nodup) (hf : refs.find? (hasNumber heap n) = some r) :
    deref (markLabeled heap r) refs = markFirstLabeled n (deref heap refs) := by
  induction refs with
  | nil => simp at hf
  | cons a rest ih =>
    have hnd' := List.nodup_cons.mp hnd
    by_cases ha : hasNumber heap n a = true
    · rw [List.find?_cons_of_pos _ ha] at hf
      have har : a = r := Option.some.inj hf
      subst har
      unfold hasNumber at ha
      cases hget : heap[a]? with
      | none => simp [hget] at ha
      | some y =>
        simp only [hget, decide_eq_true_eq] at ha
        have hlt : a < heap.length := (List.getElem?_eq_some_iff.mp hget).1
        have hrest := deref_set_of_not_mem heap a
          { y with issue := { y.issue with labeled := true } } rest hnd'.1
        simp only [deref] at hrest
        simp only [markLabeled, hget, deref, List.filterMap_cons, List.getElem?_set_self hlt,
          markFirstLabeled]
        rw [if_pos ha, hrest]
    · rw [List.find?_cons_of_neg _ ha] at hf
      have hr : hasNumber heap n r = true := List.find?_some hf
      have hne : r ≠ a := fun e => ha (e ▸ hr)
      have ih' := ih hnd'.2 hf
      simp only [deref] at ih'
      simp only [deref, List.filterMap_cons, markLabeled_getElem?_ne heap r a hne]
      cases hget : heap[a]? with
      | none => simpa using ih'
      | some y =>
        have hy : ¬ y.issue.number = n := by
          intro e
          apply ha
          simp [hasNumber, hget, e]
        simp only [markFirstLabeled, hy, if_false, ih']

theorem markFirstLabeled_of_find_none (heap : List Result) (n : Int) (refs : List Ref)
    (hf : refs.find? (hasNumber heap n) = none) :
    markFirstLabeled n (deref heap refs) = deref heap refs := by
  induction refs with
  | nil => rfl
  | cons a rest ih =>
    have ha : ¬ hasNumber heap n a = true := by
      intro h
      rw [List.find?_cons_of_pos _ h] at hf
      exact Option.noConfusion hf
    rw [List.find?_cons_of_neg _ ha] at hf
    have ih' := ih hf
    simp only [deref] at ih'
    simp only [deref, List.filterMap_cons]
    cases hget : heap[a]? with
    | none => simpa using ih'
    | some y =>
      have hy : ¬ y.issue.number = n := by
        intro e
        apply ha
        simp [hasNumber, hget, e]
      simp only [markFirstLabeled, hy, if_false, ih']

theorem alert_cache (s : State) (m : String) : (alert s m).cache = s.cache := rfl
theorem alert_view (s : State) (m : String) : (alert s m).view = s.view := rfl
theorem fetch_cache (s : State) (u : String) : (fetch s u).cache = s.cache := rfl
theorem fetch_view (s : State) (u : String) : (fetch s u).view = s.view := rfl

theorem updateLabels_declined (s : State) (n : Int) (category : String)
    (response : Fetched LabelData) : updateLabels s n category false response = s := by
  simp [updateLabels]

theorem updateLabels_failed (s : State) (n : Int) (category : String)
    (response : Fetched LabelData) (h : ∀ e, response ≠ .ok ⟨true, e⟩) :
    (updateLabels s n category true response).cache = s.cache
      ∧ (updateLabels s n category true response).view = s.view := by
  cases response with
  | thrown m => simp [updateLabels, alert_cache, alert_view, fetch_cache, fetch_view]
  | notOk st body => simp [updateLabels, alert_cache, alert_view, fetch_cache, fetch_view]
  | ok data =>
    have hs : data.success = false := by
      cases hd : data.success with
      | false => rfl
      | true =>
        exfalso
        apply h data.error
        cases data
        simp_all
    simp [updateLabels, hs, alert_cache, alert_view, fetch_cache, fetch_view]

theorem updateLabels_not_rendered (s : State) (n : Int) (category : String) (e : Option String)
    (h : s.issuesList.find? (fun card => decide (card.issueNumber = n)) = none) :
    (updateLabels s n category true (.ok ⟨true, e⟩)).cache = s.cache
      ∧ (updateLabels s n category true (.ok ⟨true, e⟩)).view = s.view := by
  have h' : (fetch s (API_BASE ++ "/update-labels/" ++ toString n ++ "?category=" ++ category)
      ).issuesList.find? (fun card => decide (card.issueNumber = n)) = none := h
  simp [updateLabels, h', alert_cache, alert_view, fetch_cache, fetch_view]

theorem updateLabels_rendered (s : State) (n : Int) (category : String) (e : Option String)
    (hnd : s.allResults.Nodup)
    (h : (s.issuesList.find? (fun card => decide (card.issueNumber = n))).isSome = true) :
    (updateLabels s n category true (.ok ⟨true, e⟩)).cache = markFirstLabeled n s.cache := by
  have h' : ((fetch s (API_BASE ++ "/update-labels/" ++ toString n ++ "?category=" ++ category)
      ).issuesList.find? (fun card => decide (card.issueNumber = n))).isSome = true := h
  simp only [updateLabels, Bool.not_true, Bool.false_eq_true, if_false, if_true, h']
  rw [alert_cache, displayCurrentPage_cache]
  cases hf : s.allResults.find? (hasNumber s.heap n) with
  | none =>
    have hf' : (fetch s (API_BASE ++ "/update-labels/" ++ toString n ++ "?category=" ++ category)
      ).allResults.find? (hasNumber (fetch s (API_BASE ++ "/update-labels/" ++ toString n
        ++ "?category=" ++ category)).heap n) = none := hf
    simp only [hf']
    rw [fetch_cache]
    exact (markFirstLabeled_of_find_none s.heap n s.allResults hf).symm
  | some r =>
    have hf' : (fetch s (API_BASE ++ "/update-labels/" ++ toString n ++ "?category=" ++ category)
      ).allResults.find? (hasNumber (fetch s (API_BASE ++ "/update-labels/" ++ toString n
        ++ "?category=" ++ category)).heap n) = some r := hf
    simp only [hf']
    exact deref_markLabeled s.heap n s.allResults r hnd hf

theorem markFirstLabeled_labels (n : Int) (l : List Result)
    (h : ∃ result ∈ l, result.issue.number = n) :
    ∃ result ∈ markFirstLabeled n l, result.issue.number = n ∧ result.issue.labeled = true := by
  induction l with
  | nil =>
    obtain ⟨r, hr, _⟩ := h
    cases hr
  | cons a rest ih =>
    by_cases ha : a.issue.number = n
    · refine ⟨{ a with issue := { a.issue with labeled := true } }, ?_, ha, rfl⟩
      simp [markFirstLabeled, ha]
    · obtain ⟨r, hr, hn⟩ := h
      rcases List.mem_cons.mp hr with rfl | hrest
      · exact absurd hn ha
      · obtain ⟨r', hr', hp⟩ := ih ⟨r, hrest, hn⟩
        refine ⟨r', ?_, hp⟩
        simp [markFirstLabeled, ha, hr']

/-! ## Steps and the cache -/

theorem previousPage_frame (s : State) :
    (previousPage s).heap = s.heap ∧ (previousPage s).allResults = s.allResults := by
  unfold previousPage
  split_ifs <;> simp

theorem nextPage_frame (s : State) :
    (nextPage s).heap = s.heap ∧ (nextPage s).allResults = s.allResults := by
  unfold nextPage
  split_ifs <;> simp

theorem searchIssue_frame (s : State) (value : String) (response : Fetched SearchData) :
    (searchIssue s value response).heap = s.heap
      ∧ (searchIssue s value response).allResults = s.allResults := by
  unfold searchIssue
  cases parseInt value with
  | none => simp [displaySearchError, clearSearchError]
  | some n =>
    by_cases hv : value = "" ∨ n ≤ 0
    · simp [hv, displaySearchError, clearSearchError]
    · simp only [hv, if_false]
      cases response with
      | thrown m => simp [displaySearchError, showLoading, fetch, clearSearchError]
      | notOk st body =>
        cases body <;> simp [displaySearchError, showLoading, fetch, clearSearchError]
      | ok data =>
        by_cases hs : data.success = true
        · cases hi : data.issue <;> cases ht : data.triageResult <;>
            simp [hs, hi, ht, displaySearchResult, displaySearchError, showLoading, fetch,
              clearSearchError]
        · simp [hs, displaySearchError, showLoading, fetch, clearSearchError]

theorem updateLabelsFromSearch_frame (s : State) (n : Int) (category : String)
    (confirmed : Bool) (response : Fetched LabelData) :
    (updateLabelsFromSearch s n category confirmed response).heap = s.heap
      ∧ (updateLabelsFromSearch s n category confirmed response).allResults = s.allResults := by
  unfold updateLabelsFromSearch
  cases confirmed
  · simp
  · cases response with
    | thrown m => simp [alert, fetch]
    | notOk st body => simp [alert, fetch]
    | ok data =>
      obtain ⟨success, err⟩ := data
      cases success <;> simp [alert, fetch]

theorem updateLabels_allResults (s : State) (n : Int) (category : String)
    (confirmed : Bool) (response : Fetched LabelData) :
    (updateLabels s n category confirmed response).allResults = s.allResults := by
  unfold updateLabels
  cases confirmed
  · simp
  · cases response with
    | thrown m => simp [alert, fetch]
    | notOk st body => simp [alert, fetch]
    | ok data =>
      obtain ⟨success, err⟩ := data
      cases success
      · simp [alert, fetch]
      · simp only [Bool.not_true, Bool.false_eq_true, if_false, if_true]
        split_ifs
        · split <;> simp [alert, fetch]
        · simp [alert, fetch]

theorem updateLabels_heap (s : State) (n : Int) (category : String)
    (confirmed : Bool) (response : Fetched LabelData) :
    (updateLabels s n category confirmed response).heap = s.heap
      ∨ ∃ r, (updateLabels s n category confirmed response).heap = markLabeled s.heap r := by
  unfold updateLabels
  cases confirmed
  · simp
  · cases response with
    | thrown m => simp [alert, fetch]
    | notOk st body => simp [alert, fetch]
    | ok data =>
      obtain ⟨success, err⟩ := data
      cases success
      · simp [alert, fetch]
      · simp only [Bool.not_true, Bool.false_eq_true, if_false, if_true]
        split_ifs
        · split
          · rename_i r _
            right
            exact ⟨r, by simp [alert, fetch]⟩
          · simp [alert, fetch]
        · simp [alert, fetch]

theorem deref_markLabeled_mem (heap : List Result) (r : Ref) (refs : List Ref)
    (result : Result) (h : result ∈ deref (markLabeled heap r) refs) :
    ∃ old ∈ deref heap refs, result.issue.number = old.issue.number
      ∧ (old.issue.labeled = true → result.issue.labeled = true) := by
  simp only [deref, List.mem_filterMap] at h ⊢
  obtain ⟨a, ha, hget⟩ := h
  by_cases hra : r = a
  · subst hra
    unfold markLabeled at hget
    cases hold : heap[r]? with
    | none =>
      rw [hold] at hget
      simp only at hget
      rw [hold] at hget
      exact Option.noConfusion hget
    | some x =>
      rw [hold] at hget
      simp only at hget
      have hlt : r < heap.length := (List.getElem?_eq_some_iff.mp hold).1
      rw [List.getElem?_set_self hlt] at hget
      have hx := Option.some.inj hget
      refine ⟨x, ⟨r, ha, hold⟩, ?_, ?_⟩
      · rw [← hx]
      · intro _
        rw [← hx]
  · rw [markLabeled_getElem?_ne heap r a hra] at hget
    exact ⟨result, ⟨a, ha, hget⟩, rfl, fun h => h⟩

theorem startQuickTriage_cases (s : State) (confirmed : Bool)
    (response : Fetched (List QuickResult)) :
    ((startQuickTriage s confirmed response).cache = s.cache
        ∧ (startQuickTriage s confirmed response).allResults = s.allResults)
      ∨ ∃ results, confirmed = true ∧ response = .ok results
        ∧ (startQuickTriage s confirmed response).cache = results.map quickTriageResult
        ∧ (startQuickTriage s confirmed response).allResults
            = List.range' s.heap.length results.length := by
  cases confirmed
  · left
    simp [startQuickTriage]
  · cases response with
    | thrown m => left; simp [startQuickTriage, alert, showLoading, fetch, State.cache]
    | notOk st body => left; simp [startQuickTriage, alert, showLoading, fetch, State.cache]
    | ok results =>
      right
      refine ⟨results, rfl, rfl, startQuickTriage_ok_cache s results, ?_⟩
      simp only [startQuickTriage, if_true]
      rw [filterByCategory_allResults]
      simp [updateSummary, alert, showLoading, storeResults, fetch]

theorem loadQuickTriageResults_cases (s : State) (response : Fetched (List QuickResult)) :
    ((loadQuickTriageResults s response).cache = s.cache
        ∧ (loadQuickTriageResults s response).allResults = s.allResults)
      ∨ ∃ results, response = .ok results
        ∧ (loadQuickTriageResults s response).cache = results.map loadedQuickTriageResult
        ∧ (loadQuickTriageResults s response).allResults
            = List.range' s.heap.length results.length := by
  cases response with
  | thrown m => left; simp [loadQuickTriageResults, fetch, State.cache]
  | notOk st body => left; simp [loadQuickTriageResults, fetch, State.cache]
  | ok results =>
    by_cases hne : results = []
    · left
      simp [loadQuickTriageResults, hne, fetch, State.cache]
    · right
      refine ⟨results, rfl, loadQuickTriageResults_ok_cache s results hne, ?_⟩
      have hlen : results.length > 0 := List.length_pos.mpr hne
      simp only [loadQuickTriageResults, hlen, if_true]
      rw [filterByCategory_allResults]
      simp [updateSummary, storeResults, fetch]

theorem startCategorizationBegin_cache (s : State) :
    (startCategorizationBegin s).cache = [] ∧ (startCategorizationBegin s).allResults = [] := by
  simp [startCategorizationBegin, State.cache, showLoading, deref]

theorem startCategorizationResolve_cases (s : State) (response : Fetched CategorizeData) :
    ((startCategorizationResolve s response).cache = s.cache
        ∧ (startCategorizationResolve s response).allResults = s.allResults)
      ∨ ∃ data, response = .ok data
        ∧ (startCategorizationResolve s response).cache = data.results
        ∧ (startCategorizationResolve s response).allResults
            = List.range' s.heap.length data.results.length := by
  cases response with
  | thrown m =>
    left
    simp [startCategorizationResolve, categorizeAllPages, alert, showLoading, fetch, State.cache]
  | notOk st body =>
    left
    simp [startCategorizationResolve, categorizeAllPages, alert, showLoading, fetch, State.cache]
  | ok data =>
    by_cases h : data.results.length > 0
    · right
      refine ⟨data, rfl, ?_, ?_⟩
      · simp only [startCategorizationResolve, categorizeAllPages, h, if_true]
        rw [filterByCategory_cache]
        simp [State.cache, updateSummary, alert, showLoading, storeResults, fetch,
          deref_append_range]
      · simp only [startCategorizationResolve, categorizeAllPages, h, if_true]
        rw [filterByCategory_allResults]
        simp [updateSummary, alert, showLoading, storeResults, fetch]
    · left
      simp only [startCategorizationResolve, categorizeAllPages, h, if_false]
      rw [filterByCategory_cache, filterByCategory_allResults]
      simp [State.cache, updateSummary, alert, showLoading, fetch]

theorem apply_allResults_nodup (s : State) (op : Op) (h : s.allResults.Nodup) :
    (op.apply s).allResults.Nodup := by
  cases op with
  | filterByCategory category =>
    simp only [Op.apply, filterByCategory_allResults]
    exact h
  | previousPage =>
    simp only [Op.apply, (previousPage_frame s).2]
    exact h
  | nextPage =>
    simp only [Op.apply, (nextPage_frame s).2]
    exact h
  | startQuickTriage confirmed response =>
    rcases startQuickTriage_cases s confirmed response with ⟨_, ha⟩ | ⟨rs, _, _, _, ha⟩
    · simp only [Op.apply, ha]
      exact h
    · simp only [Op.apply, ha]
      exact List.nodup_range' _ _
  | loadQuickTriageResults response =>
    rcases loadQuickTriageResults_cases s response with ⟨_, ha⟩ | ⟨rs, _, _, ha⟩
    · simp only [Op.apply, ha]
      exact h
    · simp only [Op.apply, ha]
      exact List.nodup_range' _ _
  | startCategorizationBegin =>
    simp only [Op.apply, (startCategorizationBegin_cache s).2]
    exact List.nodup_nil
  | startCategorizationResolve response =>
    rcases startCategorizationResolve_cases s response with ⟨_, ha⟩ | ⟨rs, _, _, ha⟩
    · simp only [Op.apply, ha]
      exact h
    · simp only [Op.apply, ha]
      exact List.nodup_range' _ _
  | updateLabels n category confirmed response =>
    simp only [Op.apply, updateLabels_allResults]
    exact h
  | updateLabelsFromSearch n category confirmed response =>
    simp only [Op.apply, (updateLabelsFromSearch_frame s n category confirmed response).2]
    exact h
  | searchIssue value response =>
    simp only [Op.apply, (searchIssue_frame s value response).2]
    exact h

theorem run_allResults_nodup (ops : List Op) (s : State) (h : s.allResults.Nodup) :
    (run s ops).allResults.Nodup := by
  induction ops generalizing s with
  | nil => exact h
  | cons op rest ih => exact ih (op.apply s) (apply_allResults_nodup s op h)

theorem labeledIn_of_cache_eq (s t : State) (n : Int) (h : LabeledIn s n)
    (hc : t.cache = s.cache) : LabeledIn t n := by
  unfold LabeledIn at h ⊢
  rw [hc]
  exact h

theorem labeledIn_of_frame (s t : State) (n : Int) (h : LabeledIn s n)
    (hf : t.heap = s.heap ∧ t.allResults = s.allResults) : LabeledIn t n :=
  labeledIn_of_cache_eq s t n h (by simp [State.cache, hf.1, hf.2])

theorem apply_labeledIn (s : State) (op : Op) (n : Int) (h : LabeledIn s n)
    (hop : op.ingestsUnlabeled n = false) : LabeledIn (op.apply s) n := by
  cases op with
  | filterByCategory category =>
    exact labeledIn_of_cache_eq s _ n h (filterByCategory_cache s category)
  | previousPage => exact labeledIn_of_frame s _ n h (previousPage_frame s)
  | nextPage => exact labeledIn_of_frame s _ n h (nextPage_frame s)
  | startQuickTriage confirmed response =>
    rcases startQuickTriage_cases s confirmed response with ⟨hc, _⟩ | ⟨rs, hconf, hresp, hc, _⟩
    · exact labeledIn_of_cache_eq s _ n h hc
    · subst hconf hresp
      simp only [Op.ingestsUnlabeled, List.any_eq_false, decide_eq_true_eq] at hop
      intro result hmem hn
      simp only [Op.apply, hc, List.mem_map] at hmem
      obtain ⟨q, hq, rfl⟩ := hmem
      exact absurd hn (hop q hq)
  | loadQuickTriageResults response =>
    rcases loadQuickTriageResults_cases s response with ⟨hc, _⟩ | ⟨rs, hresp, hc, _⟩
    · exact labeledIn_of_cache_eq s _ n h hc
    · subst hresp
      simp only [Op.ingestsUnlabeled, List.any_eq_false, decide_eq_true_eq] at hop
      intro result hmem hn
      simp only [Op.apply, hc, List.mem_map] at hmem
      obtain ⟨q, hq, rfl⟩ := hmem
      exact absurd hn (hop q hq)
  | startCategorizationBegin =>
    intro result hmem
    simp only [Op.apply, (startCategorizationBegin_cache s).1] at hmem
    cases hmem
  | startCategorizationResolve response =>
    rcases startCategorizationResolve_cases s response with ⟨hc, _⟩ | ⟨data, hresp, hc, _⟩
    · exact labeledIn_of_cache_eq s _ n h hc
    · subst hresp
      simp only [Op.ingestsUnlabeled, List.any_eq_false, Bool.and_eq_true, decide_eq_true_eq,
        Bool.not_eq_true', not_and, Bool.not_eq_false] at hop
      intro result hmem hn
      simp only [Op.apply, hc] at hmem
      exact hop result hmem hn
  | updateLabels m category confirmed response =>
    intro result hmem hn
    simp only [Op.apply, State.cache, updateLabels_allResults] at hmem
    rcases updateLabels_heap s m category confirmed response with hh | ⟨r, hh⟩
    · rw [hh] at hmem
      exact h result hmem hn
    · rw [hh] at hmem
      obtain ⟨old, hold, hnum, hlab⟩ := deref_markLabeled_mem s.heap r s.allResults result hmem
      exact hlab (h old hold (hnum ▸ hn))
  | updateLabelsFromSearch m category confirmed response =>
    exact labeledIn_of_frame s _ n h (updateLabelsFromSearch_frame s m category confirmed response)
  | searchIssue value response =>
    exact labeledIn_of_frame s _ n h (searchIssue_frame s value response)

/-- C7 as stated fails: issues #1 and #2 are quick-triaged and shown, the
request of `updateLabels(2)` is sent from the card of #2, and the filter is set
to `BUG` before the response arrives.  Issue #2 then has a cached result but no
card in the document, and the successful response leaves its `labeled` flag
false. -/
theorem updateLabels_success_off_page_sets_no_flag :
    Scenario.questionFilteredOut.cache.map (fun r => (r.issue.number, r.issue.labeled))
        = [(1, false), (2, false)]
      ∧ Scenario.questionFilteredOut.issuesList.map (fun card => card.issueNumber) = [1]
      ∧ (updateLabels Scenario.questionFilteredOut 2 "QUESTION" true
          (.ok ⟨true, none⟩)).cache.map (fun r => (r.issue.number, r.issue.labeled))
        = [(1, false), (2, false)] := by
  decide

/-- C7 amended: a declined confirmation returns the state unchanged; a failed
request (rejected promise, non-success status, `success = false`) leaves the
cache and the filtered view unchanged; a successful request handled while no
card of issue `n` is rendered also leaves them unchanged; a successful
request handled while a card of `n` is rendered sets `labeled = true` on the
first cached result for `n` and changes nothing else in the cache. -/
theorem updateLabels_marks_first_result_when_card_rendered (s : State) (n : Int)
    (category : String) (response : Fetched LabelData) (e : Option String) :
    updateLabels s n category false response = s
      ∧ ((∀ e', response ≠ .ok ⟨true, e'⟩) →
          (updateLabels s n category true response).cache = s.cache
            ∧ (updateLabels s n category true response).view = s.view)
      ∧ (s.issuesList.find? (fun card => decide (card.issueNumber = n)) = none →
          (updateLabels s n category true (.ok ⟨true, e⟩)).cache = s.cache
            ∧ (updateLabels s n category true (.ok ⟨true, e⟩)).view = s.view)
      ∧ (s.allResults.Nodup →
          (s.issuesList.find? (fun card => decide (card.issueNumber = n))).isSome = true →
          (updateLabels s n category true (.ok ⟨true, e⟩)).cache = markFirstLabeled n s.cache
            ∧ ((∃ result ∈ s.cache, result.issue.number = n) →
              ∃ result ∈ (updateLabels s n category true (.ok ⟨true, e⟩)).cache,
                result.issue.number = n ∧ result.issue.labeled = true)) := by
  refine ⟨updateLabels_declined s n category response,
    updateLabels_failed s n category response,
    updateLabels_not_rendered s n category e, ?_⟩
  intro hnd hcard
  have hc := updateLabels_rendered s n category e hnd hcard
  refine ⟨hc, ?_⟩
  intro hex
  rw [hc]
  exact markFirstLabeled_labels n s.cache hex

/-- C7 amended, at eleven cached results with page 0 rendered: a successful
update for issue #1 marks the first cached result, a failed one changes
nothing. -/
theorem updateLabels_marks_first_result_when_card_rendered_witness :
    (updateLabels Scenario.elevenResults 1 "BUG" true (.ok ⟨true, none⟩)).cache
        = markFirstLabeled 1 Scenario.elevenResults.cache
      ∧ (updateLabels Scenario.elevenResults 1 "BUG" true (.thrown "offline")).cache
        = Scenario.elevenResults.cache :=
  ⟨((updateLabels_marks_first_result_when_card_rendered Scenario.elevenResults 1 "BUG"
      (.ok ⟨true, none⟩) none).2.2.2 (by decide) (by decide)).1,
    ((updateLabels_marks_first_result_when_card_rendered Scenario.elevenResults 1 "BUG"
      (.thrown "offline") none).2.1 (by intro e' h; cases h)).1⟩

/-! ## The labeled flag over sequences of steps -/

theorem run_labeledIn (ops : List Op) (s : State) (n : Int) (h : LabeledIn s n)
    (hops : ∀ op ∈ ops, op.ingestsUnlabeled n = false) : LabeledIn (run s ops) n := by
  induction ops generalizing s with
  | nil => exact h
  | cons op rest ih =>
    exact ih (op.apply s)
      (apply_labeledIn s op n h (hops op (List.mem_cons_self _ _)))
      (fun o ho => hops o (List.mem_cons_of_mem _ ho))

/-- C8 as stated fails: after a successful label update for issue #1 its
cached result has `labeled = true`, and a further quick-triage run whose
response lists #1 again leaves a cached result for #1 with `labeled = false`. -/
theorem labeled_flag_lost_on_next_quick_triage :
    Scenario.labeledOne.cache.map (fun r => (r.issue.number, r.issue.labeled)) = [(1, true)]
      ∧ (run Scenario.labeledOne
          [.startQuickTriage true (.ok [Scenario.quick 1 "BUG"])]).cache.map
            (fun r => (r.issue.number, r.issue.labeled)) = [(1, false)] := by
  decide

/-- C8 amended: from a state in which every cached result for issue `n` has
`labeled = true`, every sequence of steps (filtering, paging, search, label
updates, quick triage, loading prior results, the two halves of full
categorization, with any answers) in which no bulk response brings a result
for `n` without the flag ends in a state in which every cached result for `n`
has `labeled = true`. -/
theorem labeled_flag_kept_until_issue_reingested (ops : List Op) (s : State) (n : Int)
    (h : LabeledIn s n) (hops : ∀ op ∈ ops, op.ingestsUnlabeled n = false) :
    LabeledIn (run s ops) n :=
  run_labeledIn ops s n h hops

/-- C8 amended, at issue #1 labeled, followed by a filter change, paging, a
search, a failed quick triage and a failed label update. -/
theorem labeled_flag_kept_until_issue_reingested_witness :
    LabeledIn
      (run Scenario.labeledOne
        [.filterByCategory "BUG", .nextPage, .previousPage, .searchIssue "7" (.thrown "offline"),
          .startQuickTriage true (.notOk 500 none),
          .updateLabels 1 "BUG" true (.ok ⟨false, none⟩)]) 1 :=
  labeled_flag_kept_until_issue_reingested _ Scenario.labeledOne 1
    (by unfold LabeledIn; decide) (by decide)

/-! ## One result per issue number -/

theorem mapGet_mapSet (m : App.ResultMap) (k n : Int) (v : App.TriageResult) :
    App.mapGet (App.mapSet m k v) n = if k = n then some v else App.mapGet m n := by
  induction m with
  | nil => simp [App.mapSet, App.mapGet]
  | cons entry rest ih =>
    obtain ⟨k', v'⟩ := entry
    by_cases hk : k' = k
    · subst hk
      by_cases hn : k' = n <;> simp [App.mapSet, App.mapGet, hn]
    · by_cases hn : k' = n
      · subst hn
        have : ¬ k = k' := fun e => hk e.symm
        simp [App.mapSet, App.mapGet, hk, this]
      · simp [App.mapSet, App.mapGet, hk, hn, ih]

theorem mapSet_keys_subset (m : App.ResultMap) (k : Int) (v : App.TriageResult) (x : Int)
    (hx : x ∈ (App.mapSet m k v).map Prod.fst) : x = k ∨ x ∈ m.map Prod.fst := by
  induction m with
  | nil =>
    simp [App.mapSet] at hx
    exact Or.inl hx
  | cons entry rest ih =>
    obtain ⟨k', v'⟩ := entry
    by_cases hk : k' = k
    · subst hk
      simp only [App.mapSet, if_true, List.map_cons, List.mem_cons] at hx ⊢
      rcases hx with h | h
      · exact Or.inl h
      · exact Or.inr (Or.inr h)
    · simp only [App.mapSet, hk, if_false, List.map_cons, List.mem_cons] at hx ⊢
      rcases hx with h | h
      · exact Or.inr (Or.inl h)
      · rcases ih h with h' | h'
        · exact Or.inl h'
        · exact Or.inr (Or.inr h')

theorem mapSet_keys_nodup (m : App.ResultMap) (k : Int) (v : App.TriageResult)
    (h : (m.map Prod.fst).Nodup) : ((App.mapSet m k v).map Prod.fst).Nodup := by
  induction m with
  | nil => simp [App.mapSet]
  | cons entry rest ih =>
    obtain ⟨k', v'⟩ := entry
    simp only [List.map_cons, List.nodup_cons] at h
    by_cases hk : k' = k
    · subst hk
      simp only [App.mapSet, if_true, List.map_cons, List.nodup_cons]
      exact h
    · simp only [App.mapSet, hk, if_false, List.map_cons, List.nodup_cons]
      refine ⟨?_, ih h.2⟩
      intro hmem
      rcases mapSet_keys_subset rest k v k' hmem with h' | h'
      · exact hk h'
      · exact h.1 h'

theorem triageIssue_triageResults (s : App.State) (n : Int)
    (response : Fetched App.TriageResult) :
    (App.triageIssue s n response).triageResults
      = match response with
        | .ok result => App.mapSet s.triageResults n result
        | _ => s.triageResults := by
  cases response with
  | thrown m => rfl
  | notOk st body => rfl
  | ok result =>
    simp only [App.triageIssue, App.displayTriageResult]
    split_ifs <;> rfl

theorem resolveAll_keys_nodup (events : List (Int × Fetched App.TriageResult)) (s : App.State)
    (h : (s.triageResults.map Prod.fst).Nodup) :
    ((App.resolveAll s events).triageResults.map Prod.fst).Nodup := by
  induction events generalizing s with
  | nil => exact h
  | cons event rest ih =>
    apply ih
    rw [triageIssue_triageResults]
    cases event.2 with
    | thrown m => exact h
    | notOk st body => exact h
    | ok result => exact mapSet_keys_nodup _ _ _ h

theorem resolveAll_mapGet (events : List (Int × Fetched App.TriageResult)) (s : App.State)
    (n : Int) :
    App.mapGet (App.resolveAll s events).triageResults n
      = match App.lastResolved n events with
        | some result => some result
        | none => App.mapGet s.triageResults n := by
  induction events generalizing s with
  | nil => rfl
  | cons event rest ih =>
    obtain ⟨k, response⟩ := event
    have hstep := ih (App.triageIssue s k response)
    simp only [App.resolveAll, List.foldl_cons] at hstep ⊢
    rw [hstep, triageIssue_triageResults]
    simp only [App.lastResolved]
    cases App.lastResolved n rest with
    | some later => rfl
    | none =>
      cases response with
      | thrown m => rfl
      | notOk st body => rfl
      | ok result =>
        simp only [mapGet_mapSet]
        split_ifs <;> rfl

/-- C9 as stated fails for the bulk cache: a quick-triage response that lists
issue #1 twice leaves two cached results for #1. -/
theorem quick_triage_caches_two_results_for_one_number :
    (startQuickTriage initialState true
        (.ok [Scenario.quick 1 "BUG", Scenario.quick 1 "QUESTION"])).cache.map
          (fun result => (result.issue.number, result.category))
      = [(1, "BUG"), (1, "QUESTION")] := by
  decide

/-- C9 amended: after any sequence of resolved `triageIssue` responses the
result map has one entry per issue number at most, and the entry for `n` is
the most recently resolved successful response for `n`; each bulk run replaces
the cache by exactly the results of its response, one cached result per
element in response order, so the cache has one result per issue number at
most when the response lists no number twice. -/
theorem triage_map_keeps_last_resolved_and_bulk_run_replaces_cache
    (events : List (Int × Fetched App.TriageResult)) (n : Int) (s : State)
    (results : List QuickResult) (data : CategorizeData) :
    ((App.resolveAll App.initialState events).triageResults.map Prod.fst).Nodup
      ∧ App.mapGet (App.resolveAll App.initialState events).triageResults n
          = App.lastResolved n events
      ∧ (startQuickTriage s true (.ok results)).cache = results.map quickTriageResult
      ∧ (results ≠ [] →
          (loadQuickTriageResults s (.ok results)).cache = results.map loadedQuickTriageResult)
      ∧ (startCategorization s true (.ok data)).cache = data.results
      ∧ ((results.map (fun r => r.issueNumber)).Nodup →
          ((startQuickTriage s true (.ok results)).cache.map
            (fun result => result.issue.number)).Nodup)
      ∧ ((data.results.map (fun result => result.issue.number)).Nodup →
          ((startCategorization s true (.ok data)).cache.map
            (fun result => result.issue.number)).Nodup) := by
  refine ⟨resolveAll_keys_nodup events App.initialState List.nodup_nil, ?_,
    startQuickTriage_ok_cache s results, loadQuickTriageResults_ok_cache s results,
    startCategorization_ok_cache s data, ?_, ?_⟩
  · rw [resolveAll_mapGet]
    cases App.lastResolved n events <;> rfl
  · intro h
    rw [startQuickTriage_ok_cache, List.map_map]
    exact h
  · intro h
    rw [startCategorization_ok_cache]
    exact h

/-- C9 amended, at the response `[#1 BUG, #2 QUESTION]`: loading it caches
exactly its two results, and a quick-triage run on it caches each number
once. -/
theorem triage_map_keeps_last_resolved_and_bulk_run_replaces_cache_witness :
    (loadQuickTriageResults initialState
        (.ok [Scenario.quick 1 "BUG", Scenario.quick 2 "QUESTION"])).cache
        = [Scenario.quick 1 "BUG", Scenario.quick 2 "QUESTION"].map loadedQuickTriageResult
      ∧ ((startQuickTriage initialState true
          (.ok [Scenario.quick 1 "BUG", Scenario.quick 2 "QUESTION"])).cache.map
            (fun result => result.issue.number)).Nodup :=
  ⟨(triage_map_keeps_last_resolved_and_bulk_run_replaces_cache [] 0 initialState
      [Scenario.quick 1 "BUG", Scenario.quick 2 "QUESTION"] ⟨[], 0⟩).2.2.2.1 (by decide),
    (triage_map_keeps_last_resolved_and_bulk_run_replaces_cache [] 0 initialState
      [Scenario.quick 1 "BUG", Scenario.quick 2 "QUESTION"] ⟨[], 0⟩).2.2.2.2.2.1 (by decide)⟩

/-! ## The cursor after a filter change or a bulk run -/

theorem startQuickTriage_ok_cursor (s : State) (results : List QuickResult) :
    (startQuickTriage s true (.ok results)).currentPage = 0
      ∧ (startQuickTriage s true (.ok results)).currentFilter = s.currentFilter := by
  simp only [startQuickTriage, if_true]
  rw [filterByCategory_currentPage, filterByCategory_currentFilter]
  simp [updateSummary, alert, showLoading, storeResults, fetch]

theorem loadQuickTriageResults_ok_cursor (s : State) (results : List QuickResult)
    (h : results ≠ []) :
    (loadQuickTriageResults s (.ok results)).currentPage = 0
      ∧ (loadQuickTriageResults s (.ok results)).currentFilter = s.currentFilter := by
  have hlen : results.length > 0 := List.length_pos.mpr h
  simp only [loadQuickTriageResults, hlen, if_true]
  rw [filterByCategory_currentPage, filterByCategory_currentFilter]
  simp [updateSummary, storeResults, fetch]

theorem startCategorization_ok_cursor (s : State) (data : CategorizeData) :
    (startCategorization s true (.ok data)).currentPage = 0
      ∧ (startCategorization s true (.ok data)).currentFilter = s.currentFilter := by
  by_cases h : data.results.length > 0
  · simp only [startCategorization, startCategorizationResolve, categorizeAllPages, h, if_true]
    rw [filterByCategory_currentPage, filterByCategory_currentFilter]
    simp [updateSummary, alert, showLoading, storeResults, fetch, startCategorizationBegin]
  · simp only [startCategorization, startCategorizationResolve, categorizeAllPages, h, if_true,
      if_false]
    rw [filterByCategory_currentPage, filterByCategory_currentFilter]
    simp [updateSummary, alert, showLoading, fetch, startCategorizationBegin]

/-- C10: `filterByCategory(c)` leaves the active filter `c` and the page index
0; a successful `startQuickTriage`, a `loadQuickTriageResults` with a non-empty
result set and a successful `startCategorization` each leave the page index 0,
the active filter as it was before the run, and the filtered view equal to
that filter applied to the new cache. -/
theorem filter_and_bulk_runs_reset_page_and_keep_filter (s : State) (c : String)
    (results : List QuickResult) (data : CategorizeData) :
    ((filterByCategory s c).currentFilter = c ∧ (filterByCategory s c).currentPage = 0)
      ∧ ((startQuickTriage s true (.ok results)).currentPage = 0
        ∧ (startQuickTriage s true (.ok results)).currentFilter = s.currentFilter
        ∧ (startQuickTriage s true (.ok results)).view
            = (if s.currentFilter = "all" then (startQuickTriage s true (.ok results)).cache
               else (startQuickTriage s true (.ok results)).cache.filter
                 (fun result => decide (result.category = s.currentFilter))))
      ∧ (results ≠ [] →
          (loadQuickTriageResults s (.ok results)).currentPage = 0
            ∧ (loadQuickTriageResults s (.ok results)).currentFilter = s.currentFilter
            ∧ (loadQuickTriageResults s (.ok results)).view
                = (if s.currentFilter = "all" then (loadQuickTriageResults s (.ok results)).cache
                   else (loadQuickTriageResults s (.ok results)).cache.filter
                     (fun result => decide (result.category = s.currentFilter))))
      ∧ ((startCategorization s true (.ok data)).currentPage = 0
        ∧ (startCategorization s true (.ok data)).currentFilter = s.currentFilter
        ∧ (startCategorization s true (.ok data)).view
            = (if s.currentFilter = "all" then (startCategorization s true (.ok data)).cache
               else (startCategorization s true (.ok data)).cache.filter
                 (fun result => decide (result.category = s.currentFilter)))) := by
  refine ⟨⟨filterByCategory_currentFilter s c, filterByCategory_currentPage s c⟩,
    ⟨(startQuickTriage_ok_cursor s results).1, (startQuickTriage_ok_cursor s results).2, ?_⟩,
    ?_,
    ⟨(startCategorization_ok_cursor s data).1, (startCategorization_ok_cursor s data).2, ?_⟩⟩
  · rw [startQuickTriage_ok_view, startQuickTriage_ok_cache]
  · intro hne
    refine ⟨(loadQuickTriageResults_ok_cursor s results hne).1,
      (loadQuickTriageResults_ok_cursor s results hne).2, ?_⟩
    rw [loadQuickTriageResults_ok_view s results hne, loadQuickTriageResults_ok_cache s results hne]
  · rw [startCategorization_ok_view, startCategorization_ok_cache]

/-- C10 at eleven bug reports on page 1 with the filter `BUG`: loading the
response `[#1 BUG, #2 QUESTION]` leaves page 0 and the filter it found. -/
theorem filter_and_bulk_runs_reset_page_and_keep_filter_witness :
    (loadQuickTriageResults (nextPage (filterByCategory Scenario.elevenResults "BUG"))
        (.ok [Scenario.quick 1 "BUG", Scenario.quick 2 "QUESTION"])).currentPage = 0
      ∧ (loadQuickTriageResults (nextPage (filterByCategory Scenario.elevenResults "BUG"))
        (.ok [Scenario.quick 1 "BUG", Scenario.quick 2 "QUESTION"])).currentFilter
          = (nextPage (filterByCategory Scenario.elevenResults "BUG")).currentFilter :=
  ⟨((filter_and_bulk_runs_reset_page_and_keep_filter
      (nextPage (filterByCategory Scenario.elevenResults "BUG")) "all"
      [Scenario.quick 1 "BUG", Scenario.quick 2 "QUESTION"] ⟨[], 0⟩).2.2.1 (by decide)).1,
    ((filter_and_bulk_runs_reset_page_and_keep_filter
      (nextPage (filterByCategory Scenario.elevenResults "BUG")) "all"
      [Scenario.quick 1 "BUG", Scenario.quick 2 "QUESTION"] ⟨[], 0⟩).2.2.1 (by decide)).2.1⟩

/-! ## The untriaged issue list -/

theorem loadIssues_ok_eq (s : App.State) (offset : Int) (data : App.IssuesData) :
    App.loadIssues s offset (.ok data)
      = App.showLoading (App.updatePagination (App.updateIssueCount (App.renderIssues
          { App.showLoading s true with
            requests := s.requests ++ [App.issuesUrl offset]
            issues := data.issues
            totalIssues := data.total
            currentOffset := data.offset
            hasMore := data.hasMore }))) false := rfl

theorem updatePagination_frame (s : App.State) :
    (App.updatePagination s).issues = s.issues
      ∧ (App.updatePagination s).totalIssues = s.totalIssues
      ∧ (App.updatePagination s).currentOffset = s.currentOffset
      ∧ (App.updatePagination s).hasMore = s.hasMore
      ∧ (App.updatePagination s).requests = s.requests
      ∧ (App.updatePagination s).triageResults = s.triageResults := by
  unfold App.updatePagination
  split_ifs <;> simp

theorem renderIssues_frame (s : App.State) :
    (App.renderIssues s).issues = s.issues
      ∧ (App.renderIssues s).totalIssues = s.totalIssues
      ∧ (App.renderIssues s).currentOffset = s.currentOffset
      ∧ (App.renderIssues s).hasMore = s.hasMore
      ∧ (App.renderIssues s).requests = s.requests
      ∧ (App.renderIssues s).triageResults = s.triageResults
      ∧ (App.renderIssues s).paginationShown = s.paginationShown
      ∧ (App.renderIssues s).prevBtnDisabled = s.prevBtnDisabled
      ∧ (App.renderIssues s).nextBtnDisabled = s.nextBtnDisabled := by
  unfold App.renderIssues
  split_ifs <;> simp

theorem loadIssues_ok_fields (s : App.State) (offset : Int) (data : App.IssuesData) :
    (App.loadIssues s offset (.ok data)).issues = data.issues
      ∧ (App.loadIssues s offset (.ok data)).totalIssues = data.total
      ∧ (App.loadIssues s offset (.ok data)).currentOffset = data.offset
      ∧ (App.loadIssues s offset (.ok data)).hasMore = data.hasMore := by
  rw [loadIssues_ok_eq]
  simp [App.showLoading, updatePagination_frame, App.updateIssueCount, renderIssues_frame]

theorem loadIssues_failed_fields (s : App.State) (offset : Int)
    (response : Fetched App.IssuesData) (h : ∀ data, response ≠ .ok data) :
    (App.loadIssues s offset response).issues = s.issues
      ∧ (App.loadIssues s offset response).totalIssues = s.totalIssues
      ∧ (App.loadIssues s offset response).currentOffset = s.currentOffset
      ∧ (App.loadIssues s offset response).hasMore = s.hasMore
      ∧ (App.loadIssues s offset response).paginationShown = s.paginationShown
      ∧ (App.loadIssues s offset response).prevBtnDisabled = s.prevBtnDisabled
      ∧ (App.loadIssues s offset response).nextBtnDisabled = s.nextBtnDisabled
      ∧ (App.loadIssues s offset response).errorShown
          = some "Failed to load issues. Please try again." := by
  cases response with
  | thrown m => simp [App.loadIssues, App.showLoading, App.showError]
  | notOk st body => simp [App.loadIssues, App.showLoading, App.showError]
  | ok data => exact absurd rfl (h data)

theorem loadIssues_requests (s : App.State) (offset : Int) (response : Fetched App.IssuesData) :
    (App.loadIssues s offset response).requests = s.requests ++ [App.issuesUrl offset] := by
  cases response with
  | thrown m => simp [App.loadIssues, App.showLoading, App.showError]
  | notOk st body => simp [App.loadIssues, App.showLoading, App.showError]
  | ok data =>
    rw [loadIssues_ok_eq]
    simp [App.showLoading, updatePagination_frame, App.updateIssueCount, renderIssues_frame]

theorem loadIssues_ok_pagination (s : App.State) (offset : Int) (data : App.IssuesData) :
    (data.total ≤ 10 →
        (App.loadIssues s offset (.ok data)).paginationShown = false
          ∧ (App.loadIssues s offset (.ok data)).prevBtnDisabled = s.prevBtnDisabled
          ∧ (App.loadIssues s offset (.ok data)).nextBtnDisabled = s.nextBtnDisabled)
      ∧ (10 < data.total →
        (App.loadIssues s offset (.ok data)).paginationShown = true
          ∧ (App.loadIssues s offset (.ok data)).prevBtnDisabled = decide (data.offset = 0)
          ∧ (App.loadIssues s offset (.ok data)).nextBtnDisabled = !data.hasMore) := by
  rw [loadIssues_ok_eq]
  constructor
  · intro h
    have h' : data.total ≤ ((App.PAGE_SIZE : Nat) : Int) := by simpa [App.PAGE_SIZE] using h
    simp [App.showLoading, App.updatePagination, App.updateIssueCount, renderIssues_frame, h']
  · intro h
    have h' : ¬ data.total ≤ ((App.PAGE_SIZE : Nat) : Int) := by
      simp only [App.PAGE_SIZE]; push_cast; omega
    simp [App.showLoading, App.updatePagination, App.updateIssueCount, renderIssues_frame, h']

theorem triageIssue_frame (s : App.State) (n : Int) (response : Fetched App.TriageResult) :
    (App.triageIssue s n response).currentOffset = s.currentOffset
      ∧ (App.triageIssue s n response).paginationShown = s.paginationShown
      ∧ (App.triageIssue s n response).prevBtnDisabled = s.prevBtnDisabled
      ∧ (App.triageIssue s n response).nextBtnDisabled = s.nextBtnDisabled
      ∧ (App.triageIssue s n response).hasMore = s.hasMore := by
  cases response with
  | thrown m => simp [App.triageIssue]
  | notOk st body => simp [App.triageIssue]
  | ok result =>
    simp only [App.triageIssue, App.displayTriageResult]
    split_ifs <;> simp

theorem loadIssues_aligned (s : App.State) (offset : Int) (response : Fetched App.IssuesData)
    (hs : 0 ≤ s.currentOffset ∧ s.currentOffset % 10 = 0
      ∧ (s.paginationShown = true → s.prevBtnDisabled = decide (s.currentOffset = 0)))
    (hr : ∀ data, response = .ok data → 0 ≤ data.offset ∧ data.offset % 10 = 0) :
    0 ≤ (App.loadIssues s offset response).currentOffset
      ∧ (App.loadIssues s offset response).currentOffset % 10 = 0
      ∧ ((App.loadIssues s offset response).paginationShown = true →
          (App.loadIssues s offset response).prevBtnDisabled
            = decide ((App.loadIssues s offset response).currentOffset = 0)) := by
  cases response with
  | thrown m =>
    have h := loadIssues_failed_fields s offset (.thrown m) (fun d e => by cases e)
    rw [h.2.2.1, h.2.2.2.2.1, h.2.2.2.2.2.1]
    exact hs
  | notOk st body =>
    have h := loadIssues_failed_fields s offset (.notOk st body) (fun d e => by cases e)
    rw [h.2.2.1, h.2.2.2.2.1, h.2.2.2.2.2.1]
    exact hs
  | ok data =>
    have hf := loadIssues_ok_fields s offset data
    have hp := loadIssues_ok_pagination s offset data
    have hd := hr data rfl
    rw [hf.2.2.1]
    refine ⟨hd.1, hd.2, ?_⟩
    intro hshown
    by_cases ht : data.total ≤ 10
    · rw [(hp.1 ht).1] at hshown
      exact absurd hshown (by decide)
    · exact (hp.2 (by omega)).2.1

theorem app_apply_aligned (s : App.State) (op : App.Op)
    (hs : 0 ≤ s.currentOffset ∧ s.currentOffset % 10 = 0
      ∧ (s.paginationShown = true → s.prevBtnDisabled = decide (s.currentOffset = 0)))
    (hop : op.offsetAligned = true) :
    0 ≤ (op.apply s).currentOffset ∧ (op.apply s).currentOffset % 10 = 0
      ∧ ((op.apply s).paginationShown = true →
          (op.apply s).prevBtnDisabled = decide ((op.apply s).currentOffset = 0)) := by
  cases op with
  | refresh response =>
    apply loadIssues_aligned s 0 response hs
    intro data e
    subst e
    simpa [App.Op.offsetAligned] using hop
  | previous response =>
    simp only [App.Op.apply]
    split_ifs
    · apply loadIssues_aligned s _ response hs
      intro data e
      subst e
      simpa [App.Op.offsetAligned] using hop
    · exact hs
  | next response =>
    simp only [App.Op.apply]
    split_ifs
    · apply loadIssues_aligned s _ response hs
      intro data e
      subst e
      simpa [App.Op.offsetAligned] using hop
    · exact hs
  | triage n response =>
    have h := triageIssue_frame s n response
    simp only [App.Op.apply, h.1, h.2.1, h.2.2.1]
    exact hs

theorem app_run_aligned (ops : List App.Op) (s : App.State)
    (hs : 0 ≤ s.currentOffset ∧ s.currentOffset % 10 = 0
      ∧ (s.paginationShown = true → s.prevBtnDisabled = decide (s.currentOffset = 0)))
    (hops : ∀ op ∈ ops, op.offsetAligned = true) :
    0 ≤ (App.run s ops).currentOffset ∧ (App.run s ops).currentOffset % 10 = 0
      ∧ ((App.run s ops).paginationShown = true →
          (App.run s ops).prevBtnDisabled = decide ((App.run s ops).currentOffset = 0)) := by
  induction ops generalizing s with
  | nil => exact hs
  | cons op rest ih =>
    exact ih (op.apply s) (app_apply_aligned s op hs (hops op (List.mem_cons_self _ _)))
      (fun o ho => hops o (List.mem_cons_of_mem _ ho))

/-- C11: a successful `loadIssues` makes the issue snapshot, the total count,
the current offset and the has-more flag exactly those of the response; a
failed one (rejected promise or non-success status) leaves all four as they
were and shows the error. -/
theorem loadIssues_replaces_on_success_keeps_on_failure (s : App.State) (offset : Int)
    (data : App.IssuesData) (response : Fetched App.IssuesData) :
    ((App.loadIssues s offset (.ok data)).issues = data.issues
        ∧ (App.loadIssues s offset (.ok data)).totalIssues = data.total
        ∧ (App.loadIssues s offset (.ok data)).currentOffset = data.offset
        ∧ (App.loadIssues s offset (.ok data)).hasMore = data.hasMore)
      ∧ ((∀ d, response ≠ .ok d) →
          (App.loadIssues s offset response).issues = s.issues
            ∧ (App.loadIssues s offset response).totalIssues = s.totalIssues
            ∧ (App.loadIssues s offset response).currentOffset = s.currentOffset
            ∧ (App.loadIssues s offset response).hasMore = s.hasMore
            ∧ (App.loadIssues s offset response).errorShown
                = some "Failed to load issues. Please try again.") := by
  refine ⟨loadIssues_ok_fields s offset data, ?_⟩
  intro h
  have hf := loadIssues_failed_fields s offset response h
  exact ⟨hf.1, hf.2.1, hf.2.2.1, hf.2.2.2.1, hf.2.2.2.2.2.2.2⟩

/-- C11 at a status 500 answer to `loadIssues(10)` in the initial state. -/
theorem loadIssues_replaces_on_success_keeps_on_failure_witness :
    (App.loadIssues App.initialState 10 (.notOk 500 none)).issues = App.initialState.issues
      ∧ (App.loadIssues App.initialState 10 (.notOk 500 none)).currentOffset
          = App.initialState.currentOffset :=
  ⟨((loadIssues_replaces_on_success_keeps_on_failure App.initialState 10 ⟨[], 0, 0, false⟩
      (.notOk 500 none)).2 (by intro d h; cases h)).1,
    ((loadIssues_replaces_on_success_keeps_on_failure App.initialState 10 ⟨[], 0, 0, false⟩
      (.notOk 500 none)).2 (by intro d h; cases h)).2.2.1⟩

/-- C12 as stated fails: `loadIssues(-10)` sends its request with
`offset=-10`, and after a response that reports offset 5 of 20 issues the
`previous` control sends `offset=-5`. -/
theorem loadIssues_sends_negative_offset :
    (App.loadIssues App.initialState (-10) (.thrown "")).requests
        = ["/api/triage/issues?limit=10&offset=-10"]
      ∧ (App.run App.initialState
          [.refresh (.ok ⟨[], 20, 5, true⟩), .previous (.thrown "")]).requests
        = ["/api/triage/issues?limit=10&offset=0", "/api/triage/issues?limit=10&offset=-5"] := by
  decide

/-- C12 amended: `loadIssues` sends the offset it is given, unchanged; the
offsets stay non-negative multiples of 10 through the controls instead: as long
as every successful response reports such an offset, after any sequence of
clicks and triage calls the current offset is a non-negative multiple of 10
and the `previous` button can be clicked only when the offset it sends,
`currentOffset - 10`, is one too. -/
theorem loadIssues_sends_given_offset_and_controls_keep_it_aligned (s : App.State)
    (offset : Int) (response : Fetched App.IssuesData) (ops : List App.Op) :
    (App.loadIssues s offset response).requests = s.requests ++ [App.issuesUrl offset]
      ∧ ((∀ op ∈ ops, op.offsetAligned = true) →
          0 ≤ (App.run App.initialState ops).currentOffset
            ∧ (App.run App.initialState ops).currentOffset % 10 = 0
            ∧ (App.prevEnabled (App.run App.initialState ops) = true →
                0 ≤ (App.run App.initialState ops).currentOffset - 10
                  ∧ ((App.run App.initialState ops).currentOffset - 10) % 10 = 0)) := by
  refine ⟨loadIssues_requests s offset response, ?_⟩
  intro hops
  have h := app_run_aligned ops App.initialState
    ⟨by decide, by decide, fun hshown => absurd hshown (by decide)⟩ hops
  refine ⟨h.1, h.2.1, ?_⟩
  intro hprev
  simp only [App.prevEnabled, Bool.and_eq_true, Bool.not_eq_true'] at hprev
  have hd := h.2.2 hprev.1
  rw [hprev.2] at hd
  have hne : (App.run App.initialState ops).currentOffset ≠ 0 := by
    intro e
    rw [e] at hd
    exact absurd hd (by decide)
  omega

/-- C12 amended, at a refresh answered with offset 0 of 25 issues followed by
`next` answered with offset 10. -/
theorem loadIssues_sends_given_offset_and_controls_keep_it_aligned_witness :
    0 ≤ (App.run App.initialState
        [.refresh (.ok ⟨[], 25, 0, true⟩), .next (.ok ⟨[], 25, 10, true⟩)]).currentOffset
      ∧ (App.run App.initialState
        [.refresh (.ok ⟨[], 25, 0, true⟩), .next (.ok ⟨[], 25, 10, true⟩)]).currentOffset % 10
          = 0 :=
  ⟨((loadIssues_sends_given_offset_and_controls_keep_it_aligned App.initialState 0 (.thrown "")
      [.refresh (.ok ⟨[], 25, 0, true⟩), .next (.ok ⟨[], 25, 10, true⟩)]).2 (by decide)).1,
    ((loadIssues_sends_given_offset_and_controls_keep_it_aligned App.initialState 0 (.thrown "")
      [.refresh (.ok ⟨[], 25, 0, true⟩), .next (.ok ⟨[], 25, 10, true⟩)]).2 (by decide)).2.1⟩

/-- C13 as stated fails: a response with `hasMore = true` and a total of 5
leaves the `next` action unavailable, because the pagination bar is hidden
for totals up to 10. -/
theorem next_hidden_although_hasMore :
    (App.loadIssues App.initialState 0 (.ok ⟨[], 5, 0, true⟩)).hasMore = true
      ∧ App.nextEnabled (App.loadIssues App.initialState 0 (.ok ⟨[], 5, 0, true⟩)) = false := by
  decide

/-- C13 amended: after a successful `loadIssues` whose response reports a
total above 10, the `next` action is enabled exactly when the response's
`hasMore` is true, whatever the number of returned issues; for a total of 10
or less the pagination bar is hidden, `next` is unavailable and its disabled
flag keeps its earlier value. -/
theorem next_follows_hasMore_when_total_exceeds_page (s : App.State) (offset : Int)
    (data : App.IssuesData) :
    (10 < data.total → App.nextEnabled (App.loadIssues s offset (.ok data)) = data.hasMore)
      ∧ (data.total ≤ 10 →
          App.nextEnabled (App.loadIssues s offset (.ok data)) = false
            ∧ (App.loadIssues s offset (.ok data)).nextBtnDisabled = s.nextBtnDisabled) := by
  have hp := loadIssues_ok_pagination s offset data
  constructor
  · intro h
    have h' := hp.2 h
    simp [App.nextEnabled, h'.1, h'.2.2]
  · intro h
    have h' := hp.1 h
    exact ⟨by simp [App.nextEnabled, h'.1], h'.2.2⟩

/-- C13 amended, at a response with 25 issues in total and `hasMore = true`. -/
theorem next_follows_hasMore_when_total_exceeds_page_witness :
    App.nextEnabled (App.loadIssues App.initialState 0 (.ok ⟨[], 25, 0, true⟩)) = true :=
  (next_follows_hasMore_when_total_exceeds_page App.initialState 0 ⟨[], 25, 0, true⟩).1
    (by decide)

/-! ## Error messages of the search -/

theorem notFound_head (issueId : Int) :
    (getErrorMessage (some "ISSUE_NOT_FOUND") none issueId).data.head? = some 'I' := by
  have h : getErrorMessage (some "ISSUE_NOT_FOUND") none issueId
      = "Issue #" ++ (numberText issueId
        ++ " was not found in the repository. Please check the issue number and try again.") := by
    simp [getErrorMessage, String.append_assoc]
  rw [h, String.data_append]
  rfl

theorem notFound_ne_of_head (issueId : Int) (other : String)
    (h : other.data.head? ≠ some 'I') :
    getErrorMessage (some "ISSUE_NOT_FOUND") none issueId ≠ other := by
  intro e
  apply h
  rw [← e]
  exact notFound_head issueId

theorem getErrorMessage_known_ignores_text (code : String) (text text' : Option String)
    (issueId : Int)
    (h : code ∈ ["ISSUE_NOT_FOUND", "INVALID_ISSUE_ID", "RATE_LIMIT_EXCEEDED", "GITHUB_API_ERROR",
      "CLASSIFICATION_ERROR"]) :
    getErrorMessage (some code) text issueId = getErrorMessage (some code) text' issueId := by
  simp only [List.mem_cons, List.mem_singleton, List.not_mem_nil, or_false] at h
  rcases h with rfl | rfl | rfl | rfl | rfl <;> simp [getErrorMessage]

/-- C14: for every issue id and every server-supplied text, `getErrorMessage`
gives for each of the five known codes a message that does not depend on the
server text, and the five messages together with the generic fallback
`An unexpected error occurred. Please try again.` are pairwise distinct. -/
theorem getErrorMessage_known_codes_have_distinct_messages (issueId : Int)
    (text text' : Option String) :
    (∀ code ∈ ["ISSUE_NOT_FOUND", "INVALID_ISSUE_ID", "RATE_LIMIT_EXCEEDED", "GITHUB_API_ERROR",
        "CLASSIFICATION_ERROR"],
        getErrorMessage (some code) text issueId = getErrorMessage (some code) text' issueId)
      ∧ [getErrorMessage (some "ISSUE_NOT_FOUND") text issueId,
          getErrorMessage (some "INVALID_ISSUE_ID") text issueId,
          getErrorMessage (some "RATE_LIMIT_EXCEEDED") text issueId,
          getErrorMessage (some "GITHUB_API_ERROR") text issueId,
          getErrorMessage (some "CLASSIFICATION_ERROR") text issueId,
          "An unexpected error occurred. Please try again."].Nodup
      ∧ getErrorMessage none none issueId = "An unexpected error occurred. Please try again."
      ∧ getErrorMessage (some "SOMETHING_ELSE") none issueId
          = "An unexpected error occurred. Please try again." := by
  refine ⟨fun code h => getErrorMessage_known_ignores_text code text text' issueId h, ?_,
    by simp [getErrorMessage, orElse], by simp [getErrorMessage, orElse]⟩
  rw [getErrorMessage_known_ignores_text "ISSUE_NOT_FOUND" text none issueId (by decide)]
  have h2 : getErrorMessage (some "INVALID_ISSUE_ID") text issueId
      = "Please enter a valid positive issue number." := by simp [getErrorMessage]
  have h3 : getErrorMessage (some "RATE_LIMIT_EXCEEDED") text issueId
      = "GitHub API rate limit exceeded. Please wait a few minutes and try again." := by
    simp [getErrorMessage]
  have h4 : getErrorMessage (some "GITHUB_API_ERROR") text issueId
      = "Unable to connect to GitHub. Please check your configuration and try again." := by
    simp [getErrorMessage]
  have h5 : getErrorMessage (some "CLASSIFICATION_ERROR") text issueId
      = "Failed to classify the issue. Please try again later." := by
    simp [getErrorMessage]
  rw [h2, h3, h4, h5, List.nodup_cons]
  refine ⟨?_, by decide⟩
  intro hmem
  simp only [List.mem_cons, List.mem_singleton, List.not_mem_nil, or_false] at hmem
  rcases hmem with h | h | h | h | h <;>
    exact notFound_ne_of_head issueId _ (by decide) h

/-! ## Unrecognized categories -/

theorem formatCategory_other (category : String)
    (h : category ∉ ["BUG", "FEATURE_REQUEST", "QUESTION", "USABILITY"])
    (hi : category ∉ inheritedKeys) : formatCategory category = category := by
  simp only [List.mem_cons, List.mem_singleton, List.not_mem_nil, or_false, not_or] at h
  simp [formatCategory, h.1, h.2.1, h.2.2.1, h.2.2.2, hi]

/-- C15 on the code: every bulk run keeps one cached result per element of its
response with the category string unchanged when no category is `FEATURE`,
every cached result is in the `filterByCategory('all')` view, and
`formatCategory` returns the category string itself for every category outside
`BUG`, `FEATURE_REQUEST`, `QUESTION`, `USABILITY` that no object inherits as a
property name; but for the category `constructor`, which is outside the
enumeration, the result is cached and in the view with its category unchanged
while `formatCategory` returns the text of the function `Object`, and the
card shows that text as the label. -/
theorem formatCategory_constructor_is_not_the_category (s : State)
    (results : List QuickResult) (data : CategorizeData) (category : String) :
    ((∀ r ∈ results, r.category ≠ "FEATURE") →
        (startQuickTriage s true (.ok results)).cache.map (fun result => result.category)
            = results.map (fun r => r.category)
          ∧ (results ≠ [] →
            (loadQuickTriageResults s (.ok results)).cache.map (fun result => result.category)
              = results.map (fun r => r.category)))
      ∧ ((∀ r ∈ data.results, r.category ≠ "FEATURE") →
          (startCategorization s true (.ok data)).cache = data.results)
      ∧ (filterByCategory s "all").view = s.cache
      ∧ (category ∉ ["BUG", "FEATURE_REQUEST", "QUESTION", "USABILITY"] →
          category ∉ inheritedKeys → formatCategory category = category)
      ∧ ("constructor" ∉ ["BUG", "FEATURE_REQUEST", "QUESTION", "USABILITY", "DUPLICATE"]
        ∧ (startQuickTriage initialState true
            (.ok [Scenario.quick 1 "constructor"])).cache.map (fun result => result.category)
          = ["constructor"]
        ∧ (filterByCategory (startQuickTriage initialState true
            (.ok [Scenario.quick 1 "constructor"])) "all").view.map
              (fun result => result.category) = ["constructor"]
        ∧ (startQuickTriage initialState true
            (.ok [Scenario.quick 1 "constructor"])).issuesList.map
              (fun card => card.categoryLabel) = ["function Object() \x7b [native code] \x7d"]
        ∧ formatCategory "constructor" = "function Object() \x7b [native code] \x7d"
        ∧ formatCategory "constructor" ≠ "constructor") := by
  refine ⟨?_, fun _ => startCategorization_ok_cache s data, ?_, formatCategory_other category,
    ?_⟩
  · intro hf
    constructor
    · rw [startQuickTriage_ok_cache, List.map_map]
      rfl
    · intro hne
      rw [loadQuickTriageResults_ok_cache s results hne, List.map_map]
      apply List.map_congr_left
      intro r hr
      have h : r.category ≠ "FEATURE" := hf r hr
      simp [loadedQuickTriageResult, h]
  · simp [filterByCategory_view]
  · refine ⟨by decide, ?_, ?_, ?_, by decide, by decide⟩
    · rw [startQuickTriage_ok_cache]
      rfl
    · rw [filterByCategory_view, if_pos rfl, startQuickTriage_ok_cache]
      rfl
    · decide

/-! ## A failed full categorization -/

theorem startCategorizationResolve_failed (s : State) (response : Fetched CategorizeData)
    (h : ∀ data, response ≠ .ok data) :
    (startCategorizationResolve s response).heap = s.heap
      ∧ (startCategorizationResolve s response).allResults = s.allResults
      ∧ (startCategorizationResolve s response).filteredResults = s.filteredResults
      ∧ (startCategorizationResolve s response).currentPage = s.currentPage
      ∧ (startCategorizationResolve s response).currentFilter = s.currentFilter
      ∧ (startCategorizationResolve s response).issuesList = s.issuesList
      ∧ ∃ message, (startCategorizationResolve s response).alerts
          = s.alerts ++ ["Error during categorization: " ++ message] := by
  cases response with
  | thrown m =>
    simp [startCategorizationResolve, categorizeAllPages, alert, showLoading, fetch]
  | notOk st body =>
    simp [startCategorizationResolve, categorizeAllPages, alert, showLoading, fetch]
  | ok data => exact absurd rfl (h data)

/-- C16 as stated fails: with eleven results cached and shown, a full
categorization whose request is answered with status 500 leaves an empty
cache, although the view still holds the eleven results, and the next
`filterByCategory('all')` shows nothing. -/
theorem failed_categorization_empties_shown_cache :
    Scenario.elevenResults.cache.map (fun result => result.issue.number)
        = [1, 2, 3, 4, 5, 6, 7, 8, 9, 10, 11]
      ∧ Scenario.elevenResults.view.map (fun result => result.issue.number)
        = [1, 2, 3, 4, 5, 6, 7, 8, 9, 10, 11]
      ∧ (startCategorization Scenario.elevenResults true (.notOk 500 none)).cache.map
          (fun result => result.issue.number) = []
      ∧ (startCategorization Scenario.elevenResults true (.notOk 500 none)).view.map
          (fun result => result.issue.number) = [1, 2, 3, 4, 5, 6, 7, 8, 9, 10, 11]
      ∧ (filterByCategory (startCategorization Scenario.elevenResults true (.notOk 500 none))
          "all").view.map (fun result => result.issue.number) = [] := by
  have hf := startCategorizationResolve_failed (startCategorizationBegin Scenario.elevenResults)
    (.notOk 500 none) (by intro d h; cases h)
  have hc : (startCategorization Scenario.elevenResults true (.notOk 500 none)).cache = [] := by
    simp only [startCategorization, if_true]
    rw [State.cache, hf.1, hf.2.1]
    rfl
  have hv : (startCategorization Scenario.elevenResults true (.notOk 500 none)).view
      = Scenario.elevenResults.view := by
    simp only [startCategorization, if_true]
    rw [State.view, hf.1, hf.2.2.1]
    rfl
  refine ⟨by decide, by decide, ?_, ?_, ?_⟩
  · rw [hc]
    rfl
  · rw [hv]
    decide
  · rw [filterByCategory_view, if_pos rfl, hc]
    rfl

/-- C16 amended: when the request of a full categorization fails (rejected
promise or non-success status), the run that emptied the cache at its start
restores nothing and removes nothing further: after the run the cache is
empty, the filtered view and the rendered cards are those from before the run,
an alert `Error during categorization: ...` reports the failure, and the next
`filterByCategory`, whatever its category, shows no result. -/
theorem failed_categorization_keeps_view_with_emptied_cache (s : State)
    (response : Fetched CategorizeData) (h : ∀ data, response ≠ .ok data) :
    (startCategorization s true response).cache = []
      ∧ (startCategorization s true response).view = s.view
      ∧ (startCategorization s true response).issuesList = s.issuesList
      ∧ (∃ message, (startCategorization s true response).alerts
          = s.alerts ++ ["Error during categorization: " ++ message])
      ∧ (∀ category,
          (filterByCategory (startCategorization s true response) category).view = []) := by
  have hf := startCategorizationResolve_failed (startCategorizationBegin s) response h
  have hc : (startCategorization s true response).cache = [] := by
    simp only [startCategorization, if_true]
    rw [State.cache, hf.1, hf.2.1]
    rfl
  refine ⟨hc, ?_, ?_, ?_, ?_⟩
  · simp only [startCategorization, if_true]
    rw [State.view, hf.1, hf.2.2.1]
    rfl
  · simp only [startCategorization, if_true]
    rw [hf.2.2.2.2.2.1]
    rfl
  · simp only [startCategorization, if_true]
    exact hf.2.2.2.2.2.2
  · intro category
    rw [filterByCategory_view, hc]
    split <;> rfl

/-- C16 amended, at a run answered with status 500 that started with eleven
results cached and shown. -/
theorem failed_categorization_keeps_view_with_emptied_cache_witness :
    (∀ data, (Fetched.notOk 500 none : Fetched CategorizeData) ≠ .ok data)
      ∧ (startCategorization Scenario.elevenResults true (.notOk 500 none)).cache = []
      ∧ (startCategorization Scenario.elevenResults true (.notOk 500 none)).view
        = Scenario.elevenResults.view :=
  ⟨fun d h => Fetched.noConfusion h,
    (failed_categorization_keeps_view_with_emptied_cache Scenario.elevenResults
      (.notOk 500 none) (by intro d h; cases h)).1,
    (failed_categorization_keeps_view_with_emptied_cache Scenario.elevenResults
      (.notOk 500 none) (by intro d h; cases h)).2.1⟩

/-! ## Pages partition the filtered view -/

theorem pageSlice_eq (l : List Ref) (p : Nat) :
    pageSlice l p = (l.drop (p * 10)).take 10 := by
  simp only [pageSlice, pageSize]
  by_cases h : p * 10 + 10 ≤ l.length
  · rw [Nat.min_eq_left h]
    congr 1
    omega
  · rw [Nat.min_eq_right (by omega)]
    have hlen : (l.drop (p * 10)).length = l.length - p * 10 := List.length_drop _ _
    rw [List.take_of_length_le (by omega), List.take_of_length_le (by omega)]

theorem pageSlice_length (l : List Ref) (p : Nat) :
    (pageSlice l p).length = min 10 (l.length - p * 10) := by
  rw [pageSlice_eq, List.length_take, List.length_drop]

theorem flatten_pageSlices (k : Nat) (l : List Ref) (h : l.length ≤ 10 * k) :
    ((List.range k).map (pageSlice l)).flatten = l := by
  induction k generalizing l with
  | zero =>
    have : l = [] := List.length_eq_zero.mp (by omega)
    simp [this]
  | succ k ih =>
    rw [List.range_succ_eq_map, List.map_cons, List.flatten_cons, List.map_map]
    have hshift : (pageSlice l ∘ Nat.succ) = pageSlice (l.drop 10) := by
      funext p
      simp only [Function.comp, pageSlice_eq, List.drop_drop]
      congr 2
      omega
    rw [hshift, ih (l.drop 10) (by rw [List.length_drop]; omega), pageSlice_eq]
    simp

/-- C19: with `N` filtered results the pager has `T = ceil(N / 10)` pages; the
slice `displayCurrentPage` takes for each page index below `T` is non-empty and
has at most 10 results, and the slices for the indices `0 .. T - 1` in order
concatenate to the filtered results, as references and as the objects shown. -/
theorem page_slices_partition_filtered_view (s : State) :
    totalFilteredPages s = (((s.filteredResults.length + 9) / 10 : Nat) : Int)
      ∧ (∀ p, p < (s.filteredResults.length + 9) / 10 →
          pageSlice s.filteredResults p ≠ [] ∧ (pageSlice s.filteredResults p).length ≤ 10)
      ∧ ((List.range ((s.filteredResults.length + 9) / 10)).map
          (pageSlice s.filteredResults)).flatten = s.filteredResults
      ∧ ((List.range ((s.filteredResults.length + 9) / 10)).map
          (fun p => deref s.heap (pageSlice s.filteredResults p))).flatten = s.view := by
  have hflat := flatten_pageSlices ((s.filteredResults.length + 9) / 10) s.filteredResults
    (by omega)
  refine ⟨totalFilteredPages_eq s, ?_, hflat, ?_⟩
  · intro p hp
    have hlen := pageSlice_length s.filteredResults p
    constructor
    · intro he
      rw [he] at hlen
      simp only [List.length_nil] at hlen
      omega
    · omega
  · have hd : ((List.range ((s.filteredResults.length + 9) / 10)).map
        (fun p => deref s.heap (pageSlice s.filteredResults p)))
        = ((List.range ((s.filteredResults.length + 9) / 10)).map
            (pageSlice s.filteredResults)).map (List.filterMap (fun r => s.heap[r]?)) := by
      rw [List.map_map]
      rfl
    rw [hd, ← List.filterMap_flatten, hflat]
    rfl

/-- C19 at eleven results: page 0 is non-empty with at most 10 results, and so
is page 1. -/
theorem page_slices_partition_filtered_view_witness :
    (pageSlice Scenario.elevenResults.filteredResults 0 ≠ []
        ∧ (pageSlice Scenario.elevenResults.filteredResults 0).length ≤ 10)
      ∧ (pageSlice Scenario.elevenResults.filteredResults 1 ≠ []
        ∧ (pageSlice Scenario.elevenResults.filteredResults 1).length ≤ 10) :=
  ⟨(page_slices_partition_filtered_view Scenario.elevenResults).2.1 0 (by decide),
    (page_slices_partition_filtered_view Scenario.elevenResults).2.1 1 (by decide)⟩

/-! ## The shape of a step -/

theorem sameCore_refl (s : State) : SameCore s s := ⟨rfl, rfl, rfl, rfl, rfl, rfl⟩

theorem apply_shape (s : State) (op : Op) :
    SameCore s (op.apply s)
      ∨ (∃ t, SameCore (displayCurrentPage t) (op.apply s) ∧ t.allResults = s.allResults
          ∧ t.filteredResults = s.filteredResults ∧ t.currentFilter = s.currentFilter
          ∧ (t.heap = s.heap ∨ ∃ r, t.heap = markLabeled s.heap r)
          ∧ (t.currentPage = s.currentPage
            ∨ (0 < s.currentPage ∧ t.currentPage = s.currentPage - 1)
            ∨ ((s.currentPage : Int) < totalFilteredPages s - 1
              ∧ t.currentPage = s.currentPage + 1)))
      ∨ (∃ t c, SameCore (filterByCategory t c) (op.apply s)
          ∧ ((t.heap = s.heap ∧ t.allResults = s.allResults)
            ∨ ∃ objs, t.heap = s.heap ++ objs
              ∧ t.allResults = List.range' s.heap.length objs.length))
      ∨ op = .startCategorizationBegin := by
  cases op with
  | filterByCategory category =>
    exact Or.inr (Or.inr (Or.inl ⟨s, category, sameCore_refl _, Or.inl ⟨rfl, rfl⟩⟩))
  | previousPage =>
    by_cases h : s.currentPage > 0
    · refine Or.inr (Or.inl ⟨{ s with currentPage := s.currentPage - 1 }, ?_, rfl, rfl, rfl,
        Or.inl rfl, Or.inr (Or.inl ⟨h, rfl⟩)⟩)
      simp only [Op.apply, previousPage, if_pos h]
      exact sameCore_refl _
    · left
      simp only [Op.apply, previousPage, if_neg h]
      exact sameCore_refl _
  | nextPage =>
    by_cases h : (s.currentPage : Int) < totalFilteredPages s - 1
    · refine Or.inr (Or.inl ⟨{ s with currentPage := s.currentPage + 1 }, ?_, rfl, rfl, rfl,
        Or.inl rfl, Or.inr (Or.inr ⟨h, rfl⟩)⟩)
      simp only [Op.apply, nextPage, if_pos h]
      exact sameCore_refl _
    · left
      simp only [Op.apply, nextPage, if_neg h]
      exact sameCore_refl _
  | startQuickTriage confirmed response =>
    cases confirmed
    · left
      simp [Op.apply, startQuickTriage, SameCore]
    · cases response with
      | thrown m => left; simp [Op.apply, startQuickTriage, alert, showLoading, fetch, SameCore]
      | notOk st body =>
        left; simp [Op.apply, startQuickTriage, alert, showLoading, fetch, SameCore]
      | ok results =>
        simp only [Op.apply, startQuickTriage, if_true]
        refine Or.inr (Or.inr (Or.inl
          ⟨_, _, sameCore_refl _, Or.inr ⟨results.map quickTriageResult, ?_, ?_⟩⟩))
        · simp [updateSummary, alert, showLoading, storeResults, fetch]
        · simp [updateSummary, alert, showLoading, storeResults, fetch]
  | loadQuickTriageResults response =>
    cases response with
    | thrown m => left; simp [Op.apply, loadQuickTriageResults, fetch, SameCore]
    | notOk st body => left; simp [Op.apply, loadQuickTriageResults, fetch, SameCore]
    | ok results =>
      by_cases hlen : results.length > 0
      · simp only [Op.apply, loadQuickTriageResults, hlen, if_true]
        refine Or.inr (Or.inr (Or.inl
          ⟨_, _, sameCore_refl _, Or.inr ⟨results.map loadedQuickTriageResult, ?_, ?_⟩⟩))
        · simp [updateSummary, storeResults, fetch]
        · simp [updateSummary, storeResults, fetch]
      · left
        simp only [Op.apply, loadQuickTriageResults, hlen, if_false]
        simp [fetch, SameCore]
  | startCategorizationBegin =>
    exact Or.inr (Or.inr (Or.inr rfl))
  | startCategorizationResolve response =>
    cases response with
    | thrown m =>
      left
      simp [Op.apply, startCategorizationResolve, categorizeAllPages, alert, showLoading, fetch,
        SameCore]
    | notOk st body =>
      left
      simp [Op.apply, startCategorizationResolve, categorizeAllPages, alert, showLoading, fetch,
        SameCore]
    | ok data =>
      by_cases hlen : data.results.length > 0
      · simp only [Op.apply, startCategorizationResolve, categorizeAllPages, hlen, if_true]
        refine Or.inr (Or.inr (Or.inl ⟨_, _, sameCore_refl _, Or.inr ⟨data.results, ?_, ?_⟩⟩))
        · simp [updateSummary, alert, showLoading, storeResults, fetch]
        · simp [updateSummary, alert, showLoading, storeResults, fetch]
      · simp only [Op.apply, startCategorizationResolve, categorizeAllPages, hlen, if_false]
        refine Or.inr (Or.inr (Or.inl ⟨_, _, sameCore_refl _, Or.inl ⟨?_, ?_⟩⟩))
        · simp [updateSummary, alert, showLoading, fetch]
        · simp [updateSummary, alert, showLoading, fetch]
  | updateLabels n category confirmed response =>
    cases confirmed
    · left
      simp [Op.apply, updateLabels, SameCore]
    · cases response with
      | thrown m => left; simp [Op.apply, updateLabels, alert, fetch, SameCore]
      | notOk st body => left; simp [Op.apply, updateLabels, alert, fetch, SameCore]
      | ok data =>
        obtain ⟨success, err⟩ := data
        cases success
        · left
          simp [Op.apply, updateLabels, alert, fetch, SameCore]
        · simp only [Op.apply, updateLabels, Bool.not_true, Bool.false_eq_true, if_false, if_true]
          split_ifs
          · split
            · rename_i r _
              exact Or.inr (Or.inl ⟨_, ⟨rfl, rfl, rfl, rfl, rfl, rfl⟩, rfl, rfl, rfl,
                Or.inr ⟨r, rfl⟩, Or.inl rfl⟩)
            · exact Or.inr (Or.inl ⟨_, ⟨rfl, rfl, rfl, rfl, rfl, rfl⟩, rfl, rfl, rfl,
                Or.inl rfl, Or.inl rfl⟩)
          · left
            simp [alert, fetch, SameCore]
  | updateLabelsFromSearch n category confirmed response =>
    left
    simp only [Op.apply, updateLabelsFromSearch]
    cases confirmed
    · simp [SameCore]
    · cases response with
      | thrown m => simp [alert, fetch, SameCore]
      | notOk st body => simp [alert, fetch, SameCore]
      | ok data =>
        obtain ⟨success, err⟩ := data
        cases success <;> simp [alert, fetch, SameCore]
  | searchIssue value response =>
    left
    simp only [Op.apply, searchIssue]
    cases parseInt value with
    | none => simp [displaySearchError, clearSearchError, SameCore]
    | some n =>
      by_cases hv : value = "" ∨ n ≤ 0
      · simp [hv, displaySearchError, clearSearchError, SameCore]
      · simp only [hv, if_false]
        cases response with
        | thrown m => simp [displaySearchError, showLoading, fetch, clearSearchError, SameCore]
        | notOk st body =>
          cases body <;> simp [displaySearchError, showLoading, fetch, clearSearchError, SameCore]
        | ok data =>
          by_cases hs : data.success = true
          · cases hi : data.issue <;> cases ht : data.triageResult <;>
              simp [hs, hi, ht, displaySearchResult, displaySearchError, showLoading, fetch,
                clearSearchError, SameCore]
          · simp [hs, displaySearchError, showLoading, fetch, clearSearchError, SameCore]

/-! ## Invariants of the page -/

theorem pageInRange_iff (s : State) :
    PageInRange s
      ↔ (s.currentPage = 0 ∨ s.currentPage + 1 ≤ (s.filteredResults.length + 9) / 10) := by
  unfold PageInRange
  rw [totalFilteredPages_eq]
  omega

theorem updatePaginationUI_issuesList (s : State) :
    (updatePaginationUI s).issuesList = s.issuesList := by
  unfold updatePaginationUI
  split_ifs <;> rfl

theorem displayCurrentPage_issuesList (s : State) :
    (displayCurrentPage s).issuesList
      = (deref s.heap (pageSlice s.filteredResults s.currentPage)).map createIssueCard := by
  unfold displayCurrentPage
  simp only []
  split_ifs with h
  · rw [updatePaginationUI_issuesList]
    have : pageSlice s.filteredResults s.currentPage = [] := List.length_eq_zero.mp h
    rw [this]
    rfl
  · rw [updatePaginationUI_issuesList]

theorem deref_length_of_valid (heap : List Result) (refs : List Ref)
    (h : ∀ r ∈ refs, r < heap.length) : (deref heap refs).length = refs.length := by
  induction refs with
  | nil => rfl
  | cons a rest ih =>
    have ha : a < heap.length := h a (List.mem_cons_self _ _)
    have hget : heap[a]? = some heap[a] := List.getElem?_eq_getElem ha
    have ih' := ih (fun r hr => h r (List.mem_cons_of_mem _ hr))
    simp only [deref] at ih'
    simp [deref, List.filterMap_cons, hget, ih']

theorem pageSlice_subset (l : List Ref) (p : Nat) (r : Ref) (h : r ∈ pageSlice l p) : r ∈ l := by
  rw [pageSlice_eq] at h
  exact List.mem_of_mem_drop (List.mem_of_mem_take h)

theorem markLabeled_length (heap : List Result) (r : Ref) :
    (markLabeled heap r).length = heap.length := by
  unfold markLabeled
  cases heap[r]? <;> simp

theorem hasCategory_markLabeled (heap : List Result) (r : Ref) (category : String) :
    hasCategory (markLabeled heap r) category = hasCategory heap category := by
  funext a
  unfold hasCategory
  by_cases hra : r = a
  · subst hra
    unfold markLabeled
    cases hold : heap[r]? with
    | none => simp [hold]
    | some x =>
      have hlt : r < heap.length := (List.getElem?_eq_some_iff.mp hold).1
      simp [List.getElem?_set_self hlt]
  · rw [markLabeled_getElem?_ne heap r a hra]

theorem invariant_of_sameCore (s t : State) (h : SameCore s t) (hs : Invariant s) :
    Invariant t := by
  obtain ⟨hheap, hall, hfil, hpage, hfilter, hlist⟩ := h
  obtain ⟨h1, h2, h3, h4⟩ := hs
  refine ⟨?_, ?_, ?_, ?_⟩
  · rw [pageInRange_iff] at h1 ⊢
    rw [hpage, hfil]
    exact h1
  · unfold RefsValid at h2 ⊢
    rw [hheap, hall, hfil]
    exact h2
  · rw [hfil, hlist]
    exact h3
  · unfold RefsConsistent at h4 ⊢
    rw [hheap, hall, hfil, hfilter]
    exact h4

theorem invariant_displayCurrentPage (t : State) (h1 : PageInRange t) (h2 : RefsValid t)
    (h4 : RefsConsistent t ∨ t.allResults = []) : Invariant (displayCurrentPage t) := by
  refine ⟨?_, ?_, ?_, ?_⟩
  · rw [pageInRange_iff] at h1 ⊢
    simpa using h1
  · unfold RefsValid at h2 ⊢
    simpa using h2
  · intro hne
    rw [displayCurrentPage_filteredResults] at hne
    rw [displayCurrentPage_issuesList]
    have hpos : 0 < t.filteredResults.length := List.length_pos.mpr hne
    have hslice := pageSlice_length t.filteredResults t.currentPage
    have hvalid : ∀ r ∈ pageSlice t.filteredResults t.currentPage, r < t.heap.length :=
      fun r hr => h2.2 r (pageSlice_subset _ _ r hr)
    have hlen := deref_length_of_valid t.heap _ hvalid
    rw [pageInRange_iff] at h1
    intro he
    have hzero : ((deref t.heap (pageSlice t.filteredResults t.currentPage)).map
        createIssueCard).length = 0 := by rw [he]; rfl
    rw [List.length_map, hlen, hslice] at hzero
    omega
  · unfold RefsConsistent at h4 ⊢
    simpa using h4

theorem invariant_filterByCategory (t : State) (c : String)
    (hv : ∀ r ∈ t.allResults, r < t.heap.length) : Invariant (filterByCategory t c) := by
  have hfil := filterByCategory_filteredResults t c
  have hsub : ∀ r ∈ (filterByCategory t c).filteredResults, r ∈ t.allResults := by
    intro r hr
    rw [hfil] at hr
    split_ifs at hr
    · exact hr
    · exact List.mem_of_mem_filter hr
  have hvalid : ∀ r ∈ (filterByCategory t c).filteredResults, r < t.heap.length :=
    fun r hr => hv r (hsub r hr)
  refine ⟨Or.inl (filterByCategory_currentPage t c), ?_, ?_, Or.inl ?_⟩
  · unfold RefsValid
    rw [filterByCategory_heap, filterByCategory_allResults]
    exact ⟨hv, hvalid⟩
  · intro hne
    have hpos : 0 < (filterByCategory t c).filteredResults.length := List.length_pos.mpr hne
    have hshape : (filterByCategory t c).issuesList
        = (deref t.heap (pageSlice (filterByCategory t c).filteredResults 0)).map
            createIssueCard := by
      unfold filterByCategory at hfil ⊢
      by_cases hc : c = "all"
      · simp only [hc, if_true] at hfil ⊢
        rw [displayCurrentPage_issuesList, displayCurrentPage_filteredResults]
      · simp only [hc, if_false] at hfil ⊢
        rw [displayCurrentPage_issuesList, displayCurrentPage_filteredResults]
    rw [hshape]
    have hslice := pageSlice_length (filterByCategory t c).filteredResults 0
    have hlen := deref_length_of_valid t.heap
      (pageSlice (filterByCategory t c).filteredResults 0)
      (fun r hr => hvalid r (pageSlice_subset _ _ r hr))
    intro he
    have hzero : ((deref t.heap (pageSlice (filterByCategory t c).filteredResults 0)).map
        createIssueCard).length = 0 := by rw [he]; rfl
    rw [List.length_map, hlen, hslice] at hzero
    omega
  · unfold RefsConsistent
    rw [hfil, filterByCategory_currentFilter, filterByCategory_heap, filterByCategory_allResults]

theorem invariant_initialState : Invariant initialState := by
  refine ⟨Or.inl rfl, ⟨?_, ?_⟩, ?_, Or.inl rfl⟩
  · intro r hr
    cases hr
  · intro r hr
    cases hr
  · intro h
    exact absurd rfl h

theorem invariant_startCategorizationBegin (s : State) (hs : Invariant s) :
    Invariant (startCategorizationBegin s) := by
  obtain ⟨_, h2, h3, _⟩ := hs
  refine ⟨Or.inl rfl, ⟨?_, h2.2⟩, h3, Or.inr rfl⟩
  intro r hr
  cases hr

theorem apply_invariant (s : State) (op : Op) (hs : Invariant s) : Invariant (op.apply s) := by
  rcases apply_shape s op with h | ⟨t, hcore, hall, hfil, hfilter, hheap, hpage⟩
    | ⟨t, c, hcore, hcond⟩ | hop
  · exact invariant_of_sameCore s _ h hs
  · apply invariant_of_sameCore (displayCurrentPage t) _ hcore
    obtain ⟨h1, h2, _, h4⟩ := hs
    have hlen : t.heap.length = s.heap.length := by
      rcases hheap with e | ⟨r, e⟩
      · rw [e]
      · rw [e, markLabeled_length]
    apply invariant_displayCurrentPage
    · rw [pageInRange_iff] at h1 ⊢
      rw [hfil]
      rcases hpage with e | ⟨hpos, e⟩ | ⟨hlt, e⟩
      · rw [e]
        exact h1
      · rw [e]
        omega
      · rw [totalFilteredPages_eq] at hlt
        rw [e]
        omega
    · unfold RefsValid at h2 ⊢
      rw [hall, hfil, hlen]
      exact h2
    · rcases h4 with hc | he
      · left
        unfold RefsConsistent at hc ⊢
        rw [hall, hfil, hfilter]
        rcases hheap with e | ⟨r, e⟩
        · rw [e]
          exact hc
        · rw [e, hasCategory_markLabeled]
          exact hc
      · right
        rw [hall]
        exact he
  · apply invariant_of_sameCore (filterByCategory t c) _ hcore
    apply invariant_filterByCategory
    rcases hcond with ⟨eh, ea⟩ | ⟨objs, eh, ea⟩
    · rw [eh, ea]
      exact hs.2.1.1
    · rw [eh, ea]
      intro r hr
      rw [List.mem_range'_1] at hr
      rw [List.length_append]
      exact hr.2
  · subst hop
    exact invariant_startCategorizationBegin s hs

theorem run_invariant (ops : List Op) (s : State) (hs : Invariant s) :
    Invariant (run s ops) := by
  induction ops generalizing s with
  | nil => exact hs
  | cons op rest ih => exact ih (op.apply s) (apply_invariant s op hs)

theorem apply_refsConsistent (s : State) (op : Op) (hs : RefsConsistent s)
    (hop : op ≠ .startCategorizationBegin) : RefsConsistent (op.apply s) := by
  rcases apply_shape s op with h | ⟨t, hcore, hall, hfil, hfilter, hheap, hpage⟩
    | ⟨t, c, hcore, hcond⟩ | hbegin
  · obtain ⟨hheap, hall, hfil, _, hfilter, _⟩ := h
    unfold RefsConsistent at hs ⊢
    rw [hheap, hall, hfil, hfilter]
    exact hs
  · obtain ⟨eheap, eall, efil, _, efilter, _⟩ := hcore
    unfold RefsConsistent at hs ⊢
    rw [eheap, eall, efil, efilter]
    simp only [displayCurrentPage_heap, displayCurrentPage_allResults,
      displayCurrentPage_filteredResults, displayCurrentPage_currentFilter]
    rw [hall, hfil, hfilter]
    rcases hheap with e | ⟨r, e⟩
    · rw [e]
      exact hs
    · rw [e, hasCategory_markLabeled]
      exact hs
  · obtain ⟨eheap, eall, efil, _, efilter, _⟩ := hcore
    unfold RefsConsistent
    rw [eheap, eall, efil, efilter, filterByCategory_filteredResults,
      filterByCategory_currentFilter, filterByCategory_heap, filterByCategory_allResults]
  · exact absurd hbegin hop

theorem run_refsConsistent (ops : List Op) (s : State) (hs : RefsConsistent s)
    (hops : ∀ op ∈ ops, op ≠ .startCategorizationBegin) : RefsConsistent (run s ops) := by
  induction ops generalizing s with
  | nil => exact hs
  | cons op rest ih =>
    exact ih (op.apply s) (apply_refsConsistent s op hs (hops op (List.mem_cons_self _ _)))
      (fun o ho => hops o (List.mem_cons_of_mem _ ho))

theorem viewConsistent_of_refsConsistent (s : State) (h : RefsConsistent s) :
    ViewConsistent s := by
  unfold RefsConsistent at h
  unfold ViewConsistent applyFilter State.view State.cache
  rw [h]
  split_ifs
  · rfl
  · exact deref_filter_hasCategory s.heap s.currentFilter s.allResults

/-- C17: in every state reached from the initial state by any sequence of
steps (filtering, paging, bulk runs that succeed or fail, label updates,
searches) the page index is 0 or at most `totalPages - 1`, where
`totalPages = ceil(N / 10)` for the `N` filtered results; it is 0 when `N = 0`,
and when `N > 0` the slice of the current page is non-empty and cards are
rendered. -/
theorem page_index_stays_within_pages (ops : List Op) :
    PageInRange (run initialState ops)
      ∧ ((run initialState ops).currentPage = 0
        ∨ (run initialState ops).currentPage + 1
            ≤ ((run initialState ops).filteredResults.length + 9) / 10)
      ∧ ((run initialState ops).filteredResults = [] → (run initialState ops).currentPage = 0)
      ∧ ((run initialState ops).filteredResults ≠ [] →
          ((run initialState ops).currentPage : Int)
              ≤ totalFilteredPages (run initialState ops) - 1
            ∧ pageSlice (run initialState ops).filteredResults
                (run initialState ops).currentPage ≠ []
            ∧ (run initialState ops).issuesList ≠ []) := by
  have hinv := run_invariant ops initialState invariant_initialState
  obtain ⟨h1, _, h3, _⟩ := hinv
  have h1' := (pageInRange_iff _).mp h1
  refine ⟨h1, h1', ?_, ?_⟩
  · intro he
    rw [he] at h1'
    simp only [List.length_nil] at h1'
    omega
  · intro hne
    have hpos : 0 < (run initialState ops).filteredResults.length := List.length_pos.mpr hne
    refine ⟨?_, ?_, h3 hne⟩
    · rw [totalFilteredPages_eq]
      omega
    · have hslice := pageSlice_length (run initialState ops).filteredResults
        (run initialState ops).currentPage
      intro he
      rw [he] at hslice
      simp only [List.length_nil] at hslice
      omega

/-- C20 as stated fails: after a quick triage that caches issue #1 and a full
categorization whose request fails, the active filter is `all`, the cache is
empty and the filtered view still holds #1. -/
theorem failed_categorization_leaves_view_without_cache :
    Scenario.failedCategorization.currentFilter = "all"
      ∧ Scenario.failedCategorization.cache = []
      ∧ Scenario.failedCategorization.view.map (fun result => result.issue.number) = [1]
      ∧ ¬ ViewConsistent Scenario.failedCategorization := by
  refine ⟨by decide, rfl, by decide, ?_⟩
  intro h
  have hv : Scenario.failedCategorization.view.map (fun result => result.issue.number) = [1] := by
    decide
  rw [h] at hv
  exact absurd hv (by decide)

/-- C20 amended: in every state reached from the initial state by any sequence
of steps, the filtered view is the active filter applied to the cache, or the
cache is empty; and it is the active filter applied to the cache in every
state reached without the start of a full categorization, the one step that
empties the cache and leaves the filtered view as it was. -/
theorem view_consistent_unless_categorization_emptied_cache (ops : List Op) :
    (ViewConsistent (run initialState ops) ∨ (run initialState ops).cache = [])
      ∧ ((∀ op ∈ ops, op ≠ .startCategorizationBegin) →
          ViewConsistent (run initialState ops)) := by
  constructor
  · rcases (run_invariant ops initialState invariant_initialState).2.2.2 with h | h
    · exact Or.inl (viewConsistent_of_refsConsistent _ h)
    · right
      rw [State.cache, h]
      rfl
  · intro hops
    exact viewConsistent_of_refsConsistent _ (run_refsConsistent ops initialState rfl hops)

/-- C20 amended, at a quick triage followed by a filter change, a page turn
and a successful label update. -/
theorem view_consistent_unless_categorization_emptied_cache_witness :
    ViewConsistent
      (run initialState
        [.startQuickTriage true (.ok [Scenario.quick 1 "BUG", Scenario.quick 2 "QUESTION"]),
          .filterByCategory "BUG", .nextPage,
          .updateLabels 1 "BUG" true (.ok ⟨true, none⟩)]) :=
  (view_consistent_unless_categorization_emptied_cache _).2 (by decide)

/-! ## Category counts -/

theorem increment_get (c : CategoryCounts) (cat X : String)
    (hX : X ∈ ["BUG", "FEATURE_REQUEST", "QUESTION", "USABILITY"]) :
    (c.increment cat).get X = c.get X + (if cat = X then 1 else 0) := by
  simp only [List.mem_cons, List.mem_singleton, List.not_mem_nil, or_false] at hX
  by_cases h1 : cat = "BUG"
  · subst h1
    rcases hX with rfl | rfl | rfl | rfl <;> simp [CategoryCounts.increment, CategoryCounts.get]
  · by_cases h2 : cat = "FEATURE_REQUEST"
    · subst h2
      rcases hX with rfl | rfl | rfl | rfl <;>
        simp [CategoryCounts.increment, CategoryCounts.get]
    · by_cases h3 : cat = "QUESTION"
      · subst h3
        rcases hX with rfl | rfl | rfl | rfl <;>
          simp [CategoryCounts.increment, CategoryCounts.get]
      · by_cases h4 : cat = "USABILITY"
        · subst h4
          rcases hX with rfl | rfl | rfl | rfl <;>
            simp [CategoryCounts.increment, CategoryCounts.get]
        · rcases hX with rfl | rfl | rfl | rfl <;>
            simp [CategoryCounts.increment, CategoryCounts.get, h1, h2, h3, h4]

theorem countResults_get (objs : List Result) (c : CategoryCounts) (X : String)
    (hX : X ∈ ["BUG", "FEATURE_REQUEST", "QUESTION", "USABILITY"]) :
    (countResults objs c).get X
      = c.get X + (objs.filter (fun result => decide (result.category = X))).length := by
  induction objs generalizing c with
  | nil => simp [countResults]
  | cons a rest ih =>
    have hstep : countResults (a :: rest) c = countResults rest (c.increment a.category) := rfl
    rw [hstep, ih, increment_get c a.category X hX, List.filter_cons]
    by_cases ha : a.category = X
    · simp [ha]
      omega
    · simp [ha]

theorem increment_total_le (c : CategoryCounts) (cat : String) :
    (c.increment cat).BUG + (c.increment cat).FEATURE_REQUEST + (c.increment cat).QUESTION
        + (c.increment cat).USABILITY
      ≤ c.BUG + c.FEATURE_REQUEST + c.QUESTION + c.USABILITY + 1 := by
  unfold CategoryCounts.increment
  split_ifs <;> simp <;> omega

theorem countResults_total_le (objs : List Result) (c : CategoryCounts) :
    (countResults objs c).BUG + (countResults objs c).FEATURE_REQUEST
        + (countResults objs c).QUESTION + (countResults objs c).USABILITY
      ≤ c.BUG + c.FEATURE_REQUEST + c.QUESTION + c.USABILITY + objs.length := by
  induction objs generalizing c with
  | nil => simp [countResults]
  | cons a rest ih =>
    have hstep : countResults (a :: rest) c = countResults rest (c.increment a.category) := rfl
    rw [hstep]
    have h1 := ih (c.increment a.category)
    have h2 := increment_total_le c a.category
    simp only [List.length_cons]
    omega

theorem countQuickTriage_total_le (objs : List Result) (c : CategoryCounts) :
    (countQuickTriage objs c).BUG + (countQuickTriage objs c).FEATURE_REQUEST
        + (countQuickTriage objs c).QUESTION + (countQuickTriage objs c).USABILITY
      ≤ c.BUG + c.FEATURE_REQUEST + c.QUESTION + c.USABILITY + objs.length := by
  induction objs generalizing c with
  | nil => simp [countQuickTriage]
  | cons a rest ih =>
    have hstep : countQuickTriage (a :: rest) c
        = countQuickTriage rest
            (c.increment (if a.category = "FEATURE" then "FEATURE_REQUEST" else a.category)) :=
      rfl
    rw [hstep]
    have h1 := ih (c.increment (if a.category = "FEATURE" then "FEATURE_REQUEST" else a.category))
    have h2 := increment_total_le c
      (if a.category = "FEATURE" then "FEATURE_REQUEST" else a.category)
    simp only [List.length_cons]
    omega

theorem startQuickTriage_ok_counts (s : State) (results : List QuickResult) :
    (startQuickTriage s true (.ok results)).categoryCounts
      = countQuickTriage (results.map quickTriageResult) zeroCounts := by
  simp only [startQuickTriage, if_true]
  rw [filterByCategory_categoryCounts]
  rfl

theorem loadQuickTriageResults_ok_counts (s : State) (results : List QuickResult)
    (h : results ≠ []) :
    (loadQuickTriageResults s (.ok results)).categoryCounts
      = countResults (results.map loadedQuickTriageResult) zeroCounts := by
  have hlen : results.length > 0 := List.length_pos.mpr h
  simp only [loadQuickTriageResults, hlen, if_true]
  rw [filterByCategory_categoryCounts]
  rfl

theorem startCategorization_ok_counts (s : State) (data : CategorizeData) :
    (startCategorization s true (.ok data)).categoryCounts
      = countResults data.results zeroCounts := by
  by_cases h : data.results.length > 0
  · simp only [startCategorization, startCategorizationResolve, categorizeAllPages, h, if_true]
    rw [filterByCategory_categoryCounts]
    rfl
  · simp only [startCategorization, startCategorizationResolve, categorizeAllPages, h, if_true,
      if_false]
    rw [filterByCategory_categoryCounts]
    have : data.results = [] := by
      cases hr : data.results with
      | nil => rfl
      | cons a b => simp [hr] at h
    rw [this]
    rfl

theorem counts_match_view (t : State) (X : String)
    (hX : X ∈ ["BUG", "FEATURE_REQUEST", "QUESTION", "USABILITY"])
    (hc : t.categoryCounts = countResults t.cache zeroCounts) :
    t.categoryCounts.get X
        = (t.cache.filter (fun result => decide (result.category = X))).length
      ∧ t.categoryCounts.get X = (filterByCategory t X).view.length := by
  have hne : X ≠ "all" := by
    simp only [List.mem_cons, List.mem_singleton, List.not_mem_nil, or_false] at hX
    rcases hX with rfl | rfl | rfl | rfl <;> decide
  have hz : zeroCounts.get X = 0 := by
    simp only [List.mem_cons, List.mem_singleton, List.not_mem_nil, or_false] at hX
    rcases hX with rfl | rfl | rfl | rfl <;> rfl
  have h := countResults_get t.cache zeroCounts X hX
  rw [hz, Nat.zero_add] at h
  refine ⟨by rw [hc, h], ?_⟩
  rw [filterByCategory_view, if_neg hne, hc, h]

/-- C18 on the code: after a `loadQuickTriageResults` with a non-empty response
and after a successful `startCategorization`, each of the four counts equals
the number of cached results of that category and the size of the view
`filterByCategory` gives for it, and after all three bulk runs the four counts
sum to at most the cache size; but after `startQuickTriage` on a response whose
only result has category `FEATURE`, the count for `FEATURE_REQUEST` is 1 while
no cached result has that category and the view for it is empty. -/
theorem startQuickTriage_count_disagrees_with_cache (s : State) (results : List QuickResult)
    (data : CategorizeData) :
    (results ≠ [] → ∀ X ∈ ["BUG", "FEATURE_REQUEST", "QUESTION", "USABILITY"],
        (loadQuickTriageResults s (.ok results)).categoryCounts.get X
            = ((loadQuickTriageResults s (.ok results)).cache.filter
                (fun result => decide (result.category = X))).length
          ∧ (loadQuickTriageResults s (.ok results)).categoryCounts.get X
            = (filterByCategory (loadQuickTriageResults s (.ok results)) X).view.length)
      ∧ (∀ X ∈ ["BUG", "FEATURE_REQUEST", "QUESTION", "USABILITY"],
        (startCategorization s true (.ok data)).categoryCounts.get X
            = ((startCategorization s true (.ok data)).cache.filter
                (fun result => decide (result.category = X))).length
          ∧ (startCategorization s true (.ok data)).categoryCounts.get X
            = (filterByCategory (startCategorization s true (.ok data)) X).view.length)
      ∧ ((startQuickTriage s true (.ok results)).categoryCounts.BUG
          + (startQuickTriage s true (.ok results)).categoryCounts.FEATURE_REQUEST
          + (startQuickTriage s true (.ok results)).categoryCounts.QUESTION
          + (startQuickTriage s true (.ok results)).categoryCounts.USABILITY
        ≤ (startQuickTriage s true (.ok results)).cache.length)
      ∧ ((startCategorization s true (.ok data)).categoryCounts.BUG
          + (startCategorization s true (.ok data)).categoryCounts.FEATURE_REQUEST
          + (startCategorization s true (.ok data)).categoryCounts.QUESTION
          + (startCategorization s true (.ok data)).categoryCounts.USABILITY
        ≤ (startCategorization s true (.ok data)).cache.length)
      ∧ ((startQuickTriage initialState true
            (.ok [Scenario.quick 1 "FEATURE"])).categoryCounts.get "FEATURE_REQUEST" = 1
        ∧ ((startQuickTriage initialState true
            (.ok [Scenario.quick 1 "FEATURE"])).cache.filter
              (fun result => decide (result.category = "FEATURE_REQUEST"))).length = 0
        ∧ (filterByCategory (startQuickTriage initialState true
            (.ok [Scenario.quick 1 "FEATURE"])) "FEATURE_REQUEST").view.length = 0) := by
  refine ⟨?_, ?_, ?_, ?_, by decide⟩
  · intro hne X hX
    apply counts_match_view _ X hX
    rw [loadQuickTriageResults_ok_counts s results hne, loadQuickTriageResults_ok_cache s results hne]
  · intro X hX
    apply counts_match_view _ X hX
    rw [startCategorization_ok_counts, startCategorization_ok_cache]
  · rw [startQuickTriage_ok_counts, startQuickTriage_ok_cache]
    have h := countQuickTriage_total_le (results.map quickTriageResult) zeroCounts
    simpa [zeroCounts] using h
  · rw [startCategorization_ok_counts, startCategorization_ok_cache]
    have h := countResults_total_le data.results zeroCounts
    simpa [zeroCounts] using h
